import Mathlib

/-!
Verification development for the madara block-synchronization core.

Part 1 embeds `crates/client/sync2/src/sync.rs` (the `SyncController`): the
pipeline/probe trait interfaces become records of functions, the controller
struct becomes a Lean structure, and one iteration of `run_inner`'s select
loop becomes a pure step function over a nondeterministically chosen select
branch.

Part 2 embeds `crates/client/p2p/src/handlers_impl/transactions.rs`: the
wire (protobuf "model") message types and the node's internal transaction /
receipt types, the `From` (encode) and `TryFrom` (decode) conversions, and
`read_transactions_stream`.
-/

namespace Madara

/-! ### Sync controller: interfaces and state (sync.rs) -/

/-- `mc_eth::state_update::L1StateUpdate`; the controller only reads
`block_number` (other fields do not influence `sync.rs`). -/
structure L1StateUpdate where
  block_number : Nat
  deriving Repr, DecidableEq

/-- The `ForwardPipeline` trait, as a record of the pipeline's pure queries
over an abstract pipeline-state type `Pl` (the `run` method is modelled as a
select-branch event, since it is async and mutates the pipeline). -/
structure ForwardPipelineIface (Pl : Type) where
  next_input_block_n : Pl → Nat
  input_batch_size : Pl → Nat
  is_empty : Pl → Bool

/-- The `Probe` trait's pure query over the opaque probe-state type `PS`
(the async `forward_probe` call is modelled as a select-branch event). -/
structure ProbeIface (PS : Type) where
  highest_known_block_from_state : PS → Option Nat

/-- The future stored in `current_probe_future`: built from
`probe.forward_probe(next_input_block_n, input_batch_size, probe_state)`
wrapped in `sleep_until(probe_wait_deadline)` when a deadline is pending. -/
structure ProbeFuture (PS : Type) where
  /-- The `probe_wait_deadline` captured when the future was built; the
  future sleeps until it before starting the probe query. -/
  wait_until : Option Nat
  next_block_n : Nat
  batch_size : Nat
  state : PS
  deriving Repr, DecidableEq

/-- `SyncController`'s fields. `probe : Bool` records whether
`probe: Option<Arc<R>>` is `Some` (the probe's behaviour itself lives in
`ProbeIface`). Time (`tokio::time::Instant`) is modelled as `Nat`. -/
structure SyncController (Pl PS : Type) where
  forward_pipeline : Pl
  probe : Bool
  stop_at_block_n : Option Nat
  current_l1_head : Option L1StateUpdate
  current_probe_future : Option (ProbeFuture PS)
  probe_state : PS
  probe_wait_deadline : Option Nat

/-- `PROBE_WAIT_DELAY` (2 seconds), in the model's abstract time units. -/
def PROBE_WAIT_DELAY : Nat := 2

/-- The local `aggregate_options` helper inside `target_height`. -/
def aggregate_options (a b : Option Nat) (f : Nat → Nat → Nat) : Option Nat :=
  match a, b with
  | none, none => none
  | none, some b => some b
  | some a, none => some a
  | some a, some b => some (f a b)

variable {Pl PS : Type}

/-- `SyncController::target_height`. -/
def target_height (pr : ProbeIface PS) (s : SyncController Pl PS) : Option Nat :=
  let target_block := s.current_l1_head.map (·.block_number)
  let target_block :=
    if s.probe then
      aggregate_options target_block (pr.highest_known_block_from_state s.probe_state) max
    else target_block
  aggregate_options target_block s.stop_at_block_n min

/-- `can_run_pipeline` as computed at the top of each `run_inner` iteration:
`!self.forward_pipeline.is_empty() || target_height.is_some_and(|b| b >= next_input_block_n)`. -/
def can_run_pipeline (pi : ForwardPipelineIface Pl) (pr : ProbeIface PS)
    (s : SyncController Pl PS) : Bool :=
  !pi.is_empty s.forward_pipeline ||
    (target_height pr s).any (fun b => decide (pi.next_input_block_n s.forward_pipeline ≤ b))

/-- The probe-scheduling phase of a `run_inner` iteration (the
`if let Some(probe) = &self.probe { ... }` block): when a probe is
configured, no probe future is stored, and the pipeline cannot run, build a
new probe future (capturing the current cooldown deadline) and store it. -/
def schedule_probe (pi : ForwardPipelineIface Pl) (pr : ProbeIface PS)
    (s : SyncController Pl PS) : SyncController Pl PS :=
  if s.probe then
    if s.current_probe_future.isNone && !can_run_pipeline pi pr s then
      { s with
        current_probe_future := some
          { wait_until := s.probe_wait_deadline
            next_block_n := pi.next_input_block_n s.forward_pipeline
            batch_size := pi.input_batch_size s.forward_pipeline
            state := s.probe_state } }
    else s
  else s

/-- Errors are opaque `anyhow::Error` values. -/
structure AnyhowError where
  msg : String
  deriving Repr, DecidableEq

/-- One branch of the `tokio::select!` in `run_inner`, chosen by the
environment. `l1Update` is a completed `l1_head_recv.changed()` delivering
the latest watch value; `probeCompleted` is the stored probe future
resolving at time `now`; `pipelineRan` is `forward_pipeline.run(target)`
returning, with the pipeline left in state `newPipeline`; `allDisabled` is
the `else` branch, reachable only when every other branch is disabled
(for the L1 watch channel this means it is closed, an environment fact
carried by the event itself). -/
inductive SelectBranch (Pl PS : Type) where
  | l1Update (newHead : Option L1StateUpdate)
  | probeCompleted (res : Except AnyhowError PS) (now : Nat)
  | pipelineRan (res : Except AnyhowError Unit) (newPipeline : Pl)
  | allDisabled

/-- Whether a select branch can fire, evaluated against the state after the
probe-scheduling phase (`tokio::select!` disables a branch whose
`OptionFuture` is `None` or whose completed value fails its pattern; the
`else` branch requires every other branch disabled). -/
def branch_enabled (pi : ForwardPipelineIface Pl) (pr : ProbeIface PS)
    (s : SyncController Pl PS) : SelectBranch Pl PS → Prop
  | .l1Update _ => True
  | .probeCompleted _ _ => (schedule_probe pi pr s).current_probe_future.isSome = true
  | .pipelineRan _ _ =>
      (target_height pr s).isSome = true ∧ can_run_pipeline pi pr s = true
  | .allDisabled =>
      (schedule_probe pi pr s).current_probe_future = none ∧
        ¬((target_height pr s).isSome = true ∧ can_run_pipeline pi pr s = true)

/-- Outcome of one iteration of `run_inner`'s loop: keep looping with a new
state, or break out of the loop with `Ok(())` / `Err(e)`. -/
inductive IterResult (Pl PS : Type) where
  | continue_ (s : SyncController Pl PS)
  | exitOk
  | exitErr (e : AnyhowError)

/-- One iteration of `run_inner`'s loop: compute `target_height` and
`can_run_pipeline`, run the probe-scheduling phase, then dispatch on the
select branch that fired. On probe completion the slot is cleared and the
cooldown deadline set to `now + PROBE_WAIT_DELAY` before `res?` is
evaluated; on a pipeline error `res?` propagates it; the `else` branch
breaks out with `Ok(())`. -/
def run_inner_step (pi : ForwardPipelineIface Pl) (pr : ProbeIface PS)
    (s : SyncController Pl PS) : SelectBranch Pl PS → IterResult Pl PS
  | .l1Update newHead =>
      .continue_ { schedule_probe pi pr s with current_l1_head := newHead }
  | .probeCompleted res now =>
      let s1 := { schedule_probe pi pr s with
        current_probe_future := none
        probe_wait_deadline := some (now + PROBE_WAIT_DELAY) }
      match res with
      | .ok ps => .continue_ { s1 with probe_state := ps }
      | .error e => .exitErr e
  | .pipelineRan res newPipeline =>
      match res with
      | .ok () => .continue_ { schedule_probe pi pr s with forward_pipeline := newPipeline }
      | .error e => .exitErr e
  | .allDisabled => .exitOk

/-- A probe future can start its underlying `forward_probe` query at time
`t` only once its captured `sleep_until` deadline has passed. -/
def ProbeFuture.can_start_query_at (f : ProbeFuture PS) (t : Nat) : Prop :=
  ∀ d, f.wait_until = some d → d ≤ t

/-- Written from the spec's words ("the minimum of (stop-at height if
configured) and the maximum of (settlement head, probe-derived height);
absence of any input leaves the corresponding term absent"): `min` over
options where an absent side drops out. -/
def spec_min_opt : Option Nat → Option Nat → Option Nat
  | none, b => b
  | some a, none => some a
  | some a, some b => some (min a b)

/-- Spec-side `max` over options where an absent side drops out. -/
def spec_max_opt : Option Nat → Option Nat → Option Nat
  | none, b => b
  | some a, none => some a
  | some a, some b => some (max a b)

/-- The probe-derived highest known block, present only when a probe is
configured. -/
def probe_height (pr : ProbeIface PS) (s : SyncController Pl PS) : Option Nat :=
  if s.probe then pr.highest_known_block_from_state s.probe_state else none

end Madara

namespace Madara

/-! ### Internal (node) transaction and receipt types

The node-side types from `mp_transactions` / `mp_receipt` referenced by
`handlers_impl/transactions.rs`. Their field lists are exactly those read
and written by the conversion code. Starknet field elements (`Felt`) are
modelled as `Nat` (no field arithmetic occurs in this code); machine
integers (`u32`/`u64`/`u128`) are `Nat` with explicit `< 2^w` bounds where
the code checks or assumes them. -/

/-- A Starknet field element. -/
abbrev Felt := Nat

/-- `mp_transactions::ResourceBounds` (`max_amount: u64`,
`max_price_per_unit: u128`). -/
structure ResourceBounds where
  max_amount : Nat
  max_price_per_unit : Nat
  deriving Repr, DecidableEq

/-- `mp_transactions::ResourceBoundsMapping`. -/
structure ResourceBoundsMapping where
  l1_gas : ResourceBounds
  l2_gas : ResourceBounds
  deriving Repr, DecidableEq

/-- `mp_transactions::DataAvailabilityMode`. -/
inductive DataAvailabilityMode where
  | L1
  | L2
  deriving Repr, DecidableEq

/-- `mp_transactions::InvokeTransactionV0`. -/
structure InvokeTransactionV0 where
  max_fee : Felt
  signature : List Felt
  contract_address : Felt
  entry_point_selector : Felt
  calldata : List Felt
  deriving Repr, DecidableEq

/-- `mp_transactions::InvokeTransactionV1`. -/
structure InvokeTransactionV1 where
  sender_address : Felt
  calldata : List Felt
  max_fee : Felt
  signature : List Felt
  nonce : Felt
  deriving Repr, DecidableEq

/-- `mp_transactions::InvokeTransactionV3` (`tip: u64`). -/
structure InvokeTransactionV3 where
  sender_address : Felt
  calldata : List Felt
  signature : List Felt
  nonce : Felt
  resource_bounds : ResourceBoundsMapping
  tip : Nat
  paymaster_data : List Felt
  account_deployment_data : List Felt
  nonce_data_availability_mode : DataAvailabilityMode
  fee_data_availability_mode : DataAvailabilityMode
  deriving Repr, DecidableEq

/-- `mp_transactions::L1HandlerTransaction` (`nonce: u64`). -/
structure L1HandlerTransaction where
  version : Felt
  nonce : Nat
  contract_address : Felt
  entry_point_selector : Felt
  calldata : List Felt
  deriving Repr, DecidableEq

/-- `mp_transactions::DeclareTransactionV0`. -/
structure DeclareTransactionV0 where
  sender_address : Felt
  max_fee : Felt
  signature : List Felt
  class_hash : Felt
  deriving Repr, DecidableEq

/-- `mp_transactions::DeclareTransactionV1`. -/
structure DeclareTransactionV1 where
  sender_address : Felt
  max_fee : Felt
  signature : List Felt
  nonce : Felt
  class_hash : Felt
  deriving Repr, DecidableEq

/-- `mp_transactions::DeclareTransactionV2`. -/
structure DeclareTransactionV2 where
  sender_address : Felt
  compiled_class_hash : Felt
  max_fee : Felt
  signature : List Felt
  nonce : Felt
  class_hash : Felt
  deriving Repr, DecidableEq

/-- `mp_transactions::DeclareTransactionV3` (`tip: u64`). -/
structure DeclareTransactionV3 where
  sender_address : Felt
  compiled_class_hash : Felt
  signature : List Felt
  nonce : Felt
  class_hash : Felt
  resource_bounds : ResourceBoundsMapping
  tip : Nat
  paymaster_data : List Felt
  account_deployment_data : List Felt
  nonce_data_availability_mode : DataAvailabilityMode
  fee_data_availability_mode : DataAvailabilityMode
  deriving Repr, DecidableEq

/-- `mp_transactions::DeployTransaction` (`version: Felt`). -/
structure DeployTransaction where
  version : Felt
  contract_address_salt : Felt
  constructor_calldata : List Felt
  class_hash : Felt
  deriving Repr, DecidableEq

/-- `mp_transactions::DeployAccountTransactionV1`. -/
structure DeployAccountTransactionV1 where
  max_fee : Felt
  signature : List Felt
  nonce : Felt
  contract_address_salt : Felt
  constructor_calldata : List Felt
  class_hash : Felt
  deriving Repr, DecidableEq

/-- `mp_transactions::DeployAccountTransactionV3` (`tip: u64`). -/
structure DeployAccountTransactionV3 where
  signature : List Felt
  nonce : Felt
  contract_address_salt : Felt
  constructor_calldata : List Felt
  class_hash : Felt
  resource_bounds : ResourceBoundsMapping
  tip : Nat
  paymaster_data : List Felt
  nonce_data_availability_mode : DataAvailabilityMode
  fee_data_availability_mode : DataAvailabilityMode
  deriving Repr, DecidableEq

/-- `mp_transactions::InvokeTransaction`. -/
inductive InvokeTransaction where
  | V0 (tx : InvokeTransactionV0)
  | V1 (tx : InvokeTransactionV1)
  | V3 (tx : InvokeTransactionV3)
  deriving Repr, DecidableEq

/-- `mp_transactions::DeclareTransaction`. -/
inductive DeclareTransaction where
  | V0 (tx : DeclareTransactionV0)
  | V1 (tx : DeclareTransactionV1)
  | V2 (tx : DeclareTransactionV2)
  | V3 (tx : DeclareTransactionV3)
  deriving Repr, DecidableEq

/-- `mp_transactions::DeployAccountTransaction`. -/
inductive DeployAccountTransaction where
  | V1 (tx : DeployAccountTransactionV1)
  | V3 (tx : DeployAccountTransactionV3)
  deriving Repr, DecidableEq

/-- `mp_transactions::Transaction`. -/
inductive Transaction where
  | Invoke (tx : InvokeTransaction)
  | L1Handler (tx : L1HandlerTransaction)
  | Declare (tx : DeclareTransaction)
  | Deploy (tx : DeployTransaction)
  | DeployAccount (tx : DeployAccountTransaction)
  deriving Repr, DecidableEq

/-- `mp_transactions::TransactionWithHash`. -/
structure TransactionWithHash where
  transaction : Transaction
  hash : Felt
  deriving Repr, DecidableEq

/-- `mp_receipt::PriceUnit`. -/
inductive PriceUnit where
  | Wei
  | Fri
  deriving Repr, DecidableEq

/-- `mp_receipt::FeePayment`. -/
structure FeePayment where
  amount : Felt
  unit : PriceUnit
  deriving Repr, DecidableEq

/-- `mp_receipt::MsgToL1`. -/
structure MsgToL1 where
  from_address : Felt
  to_address : Felt
  payload : List Felt
  deriving Repr, DecidableEq

/-- `mp_receipt::L1Gas` (`u128` fields, `Default` is all-zero). -/
structure L1Gas where
  l1_gas : Nat
  l1_data_gas : Nat
  deriving Repr, DecidableEq

/-- `L1Gas::default()`. -/
def L1Gas.default : L1Gas := ⟨0, 0⟩

/-- `mp_receipt::ExecutionResult`. -/
inductive ExecutionResult where
  | Succeeded
  | Reverted (reason : String)
  deriving Repr, DecidableEq

/-- `ExecutionResult::revert_reason()`. -/
def ExecutionResult.revert_reason : ExecutionResult → Option String
  | .Succeeded => none
  | .Reverted reason => some reason

/-- `mp_receipt::Event`: never converted by `transactions.rs` (the decode
side always leaves `events` empty, as its own doc comment states), so its
payload is opaque here. -/
inductive Event where
  | mk
  deriving Repr, DecidableEq

/-- `mp_receipt::ExecutionResources` (`steps: u64`, `Option<u64>` builtin
counters, gas in `u128`). -/
structure ExecutionResources where
  steps : Nat
  memory_holes : Option Nat
  range_check_builtin_applications : Option Nat
  pedersen_builtin_applications : Option Nat
  poseidon_builtin_applications : Option Nat
  ec_op_builtin_applications : Option Nat
  ecdsa_builtin_applications : Option Nat
  bitwise_builtin_applications : Option Nat
  keccak_builtin_applications : Option Nat
  segment_arena_builtin : Option Nat
  data_availability : L1Gas
  total_gas_consumed : L1Gas
  deriving Repr, DecidableEq

/-- `mp_receipt::InvokeTransactionReceipt`. -/
structure InvokeTransactionReceipt where
  transaction_hash : Felt
  actual_fee : FeePayment
  messages_sent : List MsgToL1
  events : List Event
  execution_resources : ExecutionResources
  execution_result : ExecutionResult
  deriving Repr, DecidableEq

/-- `mp_receipt::L1HandlerTransactionReceipt`. -/
structure L1HandlerTransactionReceipt where
  transaction_hash : Felt
  actual_fee : FeePayment
  messages_sent : List MsgToL1
  events : List Event
  execution_resources : ExecutionResources
  execution_result : ExecutionResult
  message_hash : Felt
  deriving Repr, DecidableEq

/-- `mp_receipt::DeclareTransactionReceipt`. -/
structure DeclareTransactionReceipt where
  transaction_hash : Felt
  actual_fee : FeePayment
  messages_sent : List MsgToL1
  events : List Event
  execution_resources : ExecutionResources
  execution_result : ExecutionResult
  deriving Repr, DecidableEq

/-- `mp_receipt::DeployTransactionReceipt`. -/
structure DeployTransactionReceipt where
  transaction_hash : Felt
  actual_fee : FeePayment
  messages_sent : List MsgToL1
  events : List Event
  execution_resources : ExecutionResources
  execution_result : ExecutionResult
  contract_address : Felt
  deriving Repr, DecidableEq

/-- `mp_receipt::DeployAccountTransactionReceipt`. -/
structure DeployAccountTransactionReceipt where
  transaction_hash : Felt
  actual_fee : FeePayment
  messages_sent : List MsgToL1
  events : List Event
  execution_resources : ExecutionResources
  execution_result : ExecutionResult
  contract_address : Felt
  deriving Repr, DecidableEq

/-- `mp_receipt::TransactionReceipt`. -/
inductive TransactionReceipt where
  | Invoke (receipt : InvokeTransactionReceipt)
  | L1Handler (receipt : L1HandlerTransactionReceipt)
  | Declare (receipt : DeclareTransactionReceipt)
  | Deploy (receipt : DeployTransactionReceipt)
  | DeployAccount (receipt : DeployAccountTransactionReceipt)
  deriving Repr, DecidableEq

/-- `TransactionReceipt::transaction_hash()`. -/
def TransactionReceipt.transaction_hash : TransactionReceipt → Felt
  | .Invoke r => r.transaction_hash
  | .L1Handler r => r.transaction_hash
  | .Declare r => r.transaction_hash
  | .Deploy r => r.transaction_hash
  | .DeployAccount r => r.transaction_hash

/-- `mp_block::TransactionWithReceipt`. -/
structure TransactionWithReceipt where
  transaction : Transaction
  receipt : TransactionReceipt
  deriving Repr, DecidableEq

/-- `mp_convert::felt_to_u64`: succeeds exactly when the felt fits `u64`. -/
def felt_to_u64 (f : Felt) : Option Nat :=
  if f < 2 ^ 64 then some f else none

/-- `mp_convert::felt_to_u128`. -/
def felt_to_u128 (f : Felt) : Option Nat :=
  if f < 2 ^ 128 then some f else none

/-- `mp_convert::felt_to_u32`. -/
def felt_to_u32 (f : Felt) : Option Nat :=
  if f < 2 ^ 32 then some f else none

/-! ### Wire ("model") message types

The protobuf-generated `model::*` types used by
`handlers_impl/transactions.rs`. Modelled from the spec's description of
the wire layer (the generated code is outside `src/`): message-typed fields
are `Option`s (absent sub-message), `repeated` fields are lists, scalar
integers are plain, enum-typed fields are raw `i32` discriminants
(`Int`), and every message's `Default` is all-absent/zero/empty. Wire
`Felt252` values convert to and from node `Felt`s bijectively, so both
sides share the `Felt` type here. -/

/-- `model::AccountSignature`. -/
structure model.AccountSignature where
  parts : List Felt
  deriving Repr, DecidableEq

/-- `model::AccountSignature::default()`. -/
def model.AccountSignature.default : model.AccountSignature := ⟨[]⟩

/-- `model::ResourceLimits`. -/
structure model.ResourceLimits where
  max_amount : Option Felt
  max_price_per_unit : Option Felt
  deriving Repr, DecidableEq

/-- `model::ResourceLimits::default()`. -/
def model.ResourceLimits.default : model.ResourceLimits := ⟨none, none⟩

/-- `model::ResourceBounds`. -/
structure model.ResourceBounds where
  l1_gas : Option model.ResourceLimits
  l2_gas : Option model.ResourceLimits
  deriving Repr, DecidableEq

/-- `model::ResourceBounds::default()`. -/
def model.ResourceBounds.default : model.ResourceBounds := ⟨none, none⟩

/-- `model::VolitionDomain` (proto enum: `L1 = 0`, `L2 = 1`). -/
inductive model.VolitionDomain where
  | L1
  | L2
  deriving Repr, DecidableEq

/-- `model::VolitionDomain::try_from(i32)` (prost-generated): recognizes
only the declared discriminants. -/
def model.VolitionDomain.fromInt : Int → Option model.VolitionDomain
  | 0 => some .L1
  | 1 => some .L2
  | _ => none

/-- `i32::from(model::VolitionDomain)`. -/
def model.VolitionDomain.toInt : model.VolitionDomain → Int
  | .L1 => 0
  | .L2 => 1

/-- `model::PriceUnit` (proto enum: `Wei = 0`, `Fri = 1`). -/
inductive model.PriceUnit where
  | Wei
  | Fri
  deriving Repr, DecidableEq

/-- `i32::from(model::PriceUnit)`. -/
def model.PriceUnit.toInt : model.PriceUnit → Int
  | .Wei => 0
  | .Fri => 1

/-- `model::transaction::DeclareV0`. -/
structure model.transaction.DeclareV0 where
  sender : Option Felt
  max_fee : Option Felt
  signature : Option model.AccountSignature
  class_hash : Option Felt
  deriving Repr, DecidableEq

/-- `model::transaction::DeclareV1`. -/
structure model.transaction.DeclareV1 where
  sender : Option Felt
  max_fee : Option Felt
  signature : Option model.AccountSignature
  class_hash : Option Felt
  nonce : Option Felt
  deriving Repr, DecidableEq

/-- `model::transaction::DeclareV2`. -/
structure model.transaction.DeclareV2 where
  sender : Option Felt
  max_fee : Option Felt
  signature : Option model.AccountSignature
  class_hash : Option Felt
  nonce : Option Felt
  compiled_class_hash : Option Felt
  deriving Repr, DecidableEq

/-- `model::transaction::DeclareV3`. -/
structure model.transaction.DeclareV3 where
  sender : Option Felt
  signature : Option model.AccountSignature
  class_hash : Option Felt
  nonce : Option Felt
  compiled_class_hash : Option Felt
  resource_bounds : Option model.ResourceBounds
  tip : Nat
  paymaster_data : List Felt
  account_deployment_data : List Felt
  nonce_data_availability_mode : Int
  fee_data_availability_mode : Int
  deriving Repr, DecidableEq

/-- `model::transaction::Deploy` (`version: u32`). -/
structure model.transaction.Deploy where
  class_hash : Option Felt
  address_salt : Option Felt
  calldata : List Felt
  version : Nat
  deriving Repr, DecidableEq

/-- `model::transaction::DeployAccountV1`. -/
structure model.transaction.DeployAccountV1 where
  max_fee : Option Felt
  signature : Option model.AccountSignature
  class_hash : Option Felt
  nonce : Option Felt
  address_salt : Option Felt
  calldata : List Felt
  deriving Repr, DecidableEq

/-- `model::transaction::DeployAccountV3`. -/
structure model.transaction.DeployAccountV3 where
  signature : Option model.AccountSignature
  class_hash : Option Felt
  nonce : Option Felt
  address_salt : Option Felt
  calldata : List Felt
  resource_bounds : Option model.ResourceBounds
  tip : Nat
  paymaster_data : List Felt
  nonce_data_availability_mode : Int
  fee_data_availability_mode : Int
  deriving Repr, DecidableEq

/-- `model::transaction::InvokeV0`. -/
structure model.transaction.InvokeV0 where
  max_fee : Option Felt
  signature : Option model.AccountSignature
  address : Option Felt
  entry_point_selector : Option Felt
  calldata : List Felt
  deriving Repr, DecidableEq

/-- `model::transaction::InvokeV1`. -/
structure model.transaction.InvokeV1 where
  sender : Option Felt
  max_fee : Option Felt
  signature : Option model.AccountSignature
  calldata : List Felt
  nonce : Option Felt
  deriving Repr, DecidableEq

/-- `model::transaction::InvokeV3`. -/
structure model.transaction.InvokeV3 where
  sender : Option Felt
  signature : Option model.AccountSignature
  calldata : List Felt
  resource_bounds : Option model.ResourceBounds
  tip : Nat
  paymaster_data : List Felt
  account_deployment_data : List Felt
  nonce_data_availability_mode : Int
  fee_data_availability_mode : Int
  nonce : Option Felt
  deriving Repr, DecidableEq

/-- `model::transaction::L1HandlerV0`. -/
structure model.transaction.L1HandlerV0 where
  nonce : Option Felt
  address : Option Felt
  entry_point_selector : Option Felt
  calldata : List Felt
  deriving Repr, DecidableEq

/-- `model::transaction::Txn` (the transaction one-of). -/
inductive model.transaction.Txn where
  | DeclareV0 (tx : model.transaction.DeclareV0)
  | DeclareV1 (tx : model.transaction.DeclareV1)
  | DeclareV2 (tx : model.transaction.DeclareV2)
  | DeclareV3 (tx : model.transaction.DeclareV3)
  | Deploy (tx : model.transaction.Deploy)
  | DeployAccountV1 (tx : model.transaction.DeployAccountV1)
  | DeployAccountV3 (tx : model.transaction.DeployAccountV3)
  | InvokeV0 (tx : model.transaction.InvokeV0)
  | InvokeV1 (tx : model.transaction.InvokeV1)
  | InvokeV3 (tx : model.transaction.InvokeV3)
  | L1Handler (tx : model.transaction.L1HandlerV0)
  deriving Repr, DecidableEq

/-- `model::Transaction`. -/
structure model.Transaction where
  transaction_hash : Option Felt
  txn : Option model.transaction.Txn
  deriving Repr, DecidableEq

/-- `model::Transaction::default()`. -/
def model.Transaction.default : model.Transaction := ⟨none, none⟩

/-- `model::MessageToL1`. -/
structure model.MessageToL1 where
  from_address : Option Felt
  payload : List Felt
  to_address : Option Felt
  deriving Repr, DecidableEq

/-- `model::receipt::execution_resources::BuiltinCounter` (`u32` counters;
the counters beyond the seven that `transactions.rs` fills stay at their
`Default` of zero, per its `..Default::default()`). -/
structure model.receipt.BuiltinCounter where
  bitwise : Nat
  ecdsa : Nat
  ec_op : Nat
  pedersen : Nat
  range_check : Nat
  poseidon : Nat
  keccak : Nat
  output : Nat
  add_mod : Nat
  mul_mod : Nat
  range_check96 : Nat
  deriving Repr, DecidableEq

/-- `BuiltinCounter::default()`. -/
def model.receipt.BuiltinCounter.default : model.receipt.BuiltinCounter :=
  ⟨0, 0, 0, 0, 0, 0, 0, 0, 0, 0, 0⟩

/-- `model::receipt::ExecutionResources` (`steps`, `memory_holes`: `u32`). -/
structure model.receipt.ExecutionResources where
  builtins : Option model.receipt.BuiltinCounter
  steps : Nat
  memory_holes : Nat
  l1_gas : Option Felt
  l1_data_gas : Option Felt
  total_l1_gas : Option Felt
  deriving Repr, DecidableEq

/-- `model::receipt::ExecutionResources::default()`. -/
def model.receipt.ExecutionResources.default : model.receipt.ExecutionResources :=
  ⟨none, 0, 0, none, none, none⟩

/-- `model::receipt::Common` (`price_unit` is the raw `i32` discriminant). -/
structure model.receipt.Common where
  actual_fee : Option Felt
  price_unit : Int
  messages_sent : List model.MessageToL1
  execution_resources : Option model.receipt.ExecutionResources
  revert_reason : Option String
  deriving Repr, DecidableEq

/-- `model::receipt::Common::default()`. -/
def model.receipt.Common.default : model.receipt.Common := ⟨none, 0, [], none, none⟩

/-- The prost-generated `Common::price_unit()` accessor: decode the raw
discriminant, falling back to the enum's default (`Wei = 0`) when it is
unrecognized. -/
def model.receipt.Common.priceUnitGet (c : model.receipt.Common) : model.PriceUnit :=
  if c.price_unit = 1 then .Fri else .Wei

/-- `model::receipt::Invoke`. -/
structure model.receipt.Invoke where
  common : Option model.receipt.Common
  deriving Repr, DecidableEq

/-- `model::receipt::L1Handler`. -/
structure model.receipt.L1Handler where
  common : Option model.receipt.Common
  msg_hash : Option Felt
  deriving Repr, DecidableEq

/-- `model::receipt::Declare`. -/
structure model.receipt.Declare where
  common : Option model.receipt.Common
  deriving Repr, DecidableEq

/-- `model::receipt::Deploy`. -/
structure model.receipt.Deploy where
  common : Option model.receipt.Common
  contract_address : Option Felt
  deriving Repr, DecidableEq

/-- `model::receipt::DeployAccount`. -/
structure model.receipt.DeployAccount where
  common : Option model.receipt.Common
  contract_address : Option Felt
  deriving Repr, DecidableEq

/-- `model::receipt::Type` (the receipt one-of). -/
inductive model.receipt.Type where
  | Invoke (r : model.receipt.Invoke)
  | L1Handler (r : model.receipt.L1Handler)
  | Declare (r : model.receipt.Declare)
  | DeprecatedDeploy (r : model.receipt.Deploy)
  | DeployAccount (r : model.receipt.DeployAccount)
  deriving Repr, DecidableEq

/-- `model::Receipt` (its `r#type` one-of field). -/
structure model.Receipt where
  type : Option model.receipt.Type
  deriving Repr, DecidableEq

/-- `model::Receipt::default()`. -/
def model.Receipt.default : model.Receipt := ⟨none⟩

/-- `model::TransactionWithReceipt`. -/
structure model.TransactionWithReceipt where
  transaction : Option model.Transaction
  receipt : Option model.Receipt
  deriving Repr, DecidableEq

/-- `model::transactions_response::TransactionMessage`. -/
inductive model.TransactionMessage where
  | TransactionWithReceipt (m : model.TransactionWithReceipt)
  | Fin
  deriving Repr, DecidableEq

/-- `model::TransactionsResponse`. -/
structure model.TransactionsResponse where
  transaction_message : Option model.TransactionMessage
  deriving Repr, DecidableEq

/-! ### Wire → internal conversions (`TryFrom` impls in transactions.rs) -/

/-- `handlers_impl::FromModelError`: the error type of every wire →
internal conversion, built via its `missing_field`, `invalid_field` and
`invalid_enum_variant` constructors (the only ones `transactions.rs`
uses). -/
inductive FromModelError where
  | missing_field (field : String)
  | invalid_field (field : String)
  | invalid_enum_variant (ty : String) (value : Int)
  deriving Repr, DecidableEq

/-- `From<model::VolitionDomain> for DataAvailabilityMode`. -/
def model.VolitionDomain.intoDAM : model.VolitionDomain → DataAvailabilityMode
  | .L1 => .L1
  | .L2 => .L2

/-- The repeated inline pattern
`model::VolitionDomain::try_from(x).map_err(|_| invalid_enum_variant("VolitionDomain", x))?.into()`. -/
def parse_volition_domain (x : Int) : Except FromModelError DataAvailabilityMode :=
  match model.VolitionDomain.fromInt x with
  | some d => .ok d.intoDAM
  | none => .error (.invalid_enum_variant "VolitionDomain" x)

/-- `From<model::PriceUnit> for PriceUnit`. -/
def model.PriceUnit.intoPU : model.PriceUnit → Madara.PriceUnit
  | .Wei => .Wei
  | .Fri => .Fri

/-- `TryFrom<model::ResourceLimits> for ResourceBounds`. -/
def model.ResourceLimits.tryInto (value : model.ResourceLimits) :
    Except FromModelError Madara.ResourceBounds :=
  match felt_to_u64 (value.max_amount.getD 0) with
  | none => .error (.invalid_field "ResourceLimits::max_amount")
  | some max_amount =>
    match felt_to_u128 (value.max_price_per_unit.getD 0) with
    | none => .error (.invalid_field "ResourceLimits::max_price_per_unit")
    | some max_price_per_unit => .ok { max_amount, max_price_per_unit }

/-- `TryFrom<model::ResourceBounds> for ResourceBoundsMapping`. -/
def model.ResourceBounds.tryInto (value : model.ResourceBounds) :
    Except FromModelError Madara.ResourceBoundsMapping := do
  let l1_gas ← (value.l1_gas.getD model.ResourceLimits.default).tryInto
  let l2_gas ← (value.l2_gas.getD model.ResourceLimits.default).tryInto
  return { l1_gas, l2_gas }

/-- `TryFrom<model::transaction::DeclareV0> for DeclareTransactionV0`. -/
def model.transaction.DeclareV0.tryInto (value : model.transaction.DeclareV0) :
    Except FromModelError DeclareTransactionV0 :=
  .ok { sender_address := value.sender.getD 0
        max_fee := value.max_fee.getD 0
        signature := (value.signature.getD model.AccountSignature.default).parts
        class_hash := value.class_hash.getD 0 }

/-- `TryFrom<model::transaction::DeclareV1> for DeclareTransactionV1`. -/
def model.transaction.DeclareV1.tryInto (value : model.transaction.DeclareV1) :
    Except FromModelError DeclareTransactionV1 :=
  .ok { sender_address := value.sender.getD 0
        max_fee := value.max_fee.getD 0
        signature := (value.signature.getD model.AccountSignature.default).parts
        nonce := value.nonce.getD 0
        class_hash := value.class_hash.getD 0 }

/-- `TryFrom<model::transaction::DeclareV2> for DeclareTransactionV2`. -/
def model.transaction.DeclareV2.tryInto (value : model.transaction.DeclareV2) :
    Except FromModelError DeclareTransactionV2 :=
  .ok { sender_address := value.sender.getD 0
        compiled_class_hash := value.compiled_class_hash.getD 0
        max_fee := value.max_fee.getD 0
        signature := (value.signature.getD model.AccountSignature.default).parts
        nonce := value.nonce.getD 0
        class_hash := value.class_hash.getD 0 }

/-- `TryFrom<model::transaction::DeclareV3> for DeclareTransactionV3`. -/
def model.transaction.DeclareV3.tryInto (value : model.transaction.DeclareV3) :
    Except FromModelError DeclareTransactionV3 := do
  let resource_bounds ← (value.resource_bounds.getD model.ResourceBounds.default).tryInto
  let ndam ← parse_volition_domain value.nonce_data_availability_mode
  let fdam ← parse_volition_domain value.fee_data_availability_mode
  return { sender_address := value.sender.getD 0
           compiled_class_hash := value.compiled_class_hash.getD 0
           signature := (value.signature.getD model.AccountSignature.default).parts
           nonce := value.nonce.getD 0
           class_hash := value.class_hash.getD 0
           resource_bounds
           tip := value.tip
           paymaster_data := value.paymaster_data
           account_deployment_data := value.account_deployment_data
           nonce_data_availability_mode := ndam
           fee_data_availability_mode := fdam }

/-- `TryFrom<model::transaction::Deploy> for DeployTransaction`. -/
def model.transaction.Deploy.tryInto (value : model.transaction.Deploy) :
    Except FromModelError DeployTransaction :=
  .ok { version := value.version
        contract_address_salt := value.address_salt.getD 0
        constructor_calldata := value.calldata
        class_hash := value.class_hash.getD 0 }

/-- `TryFrom<model::transaction::DeployAccountV1> for DeployAccountTransactionV1`. -/
def model.transaction.DeployAccountV1.tryInto (value : model.transaction.DeployAccountV1) :
    Except FromModelError DeployAccountTransactionV1 :=
  .ok { max_fee := value.max_fee.getD 0
        signature := (value.signature.getD model.AccountSignature.default).parts
        nonce := value.nonce.getD 0
        contract_address_salt := value.address_salt.getD 0
        constructor_calldata := value.calldata
        class_hash := value.class_hash.getD 0 }

/-- `TryFrom<model::transaction::DeployAccountV3> for DeployAccountTransactionV3`. -/
def model.transaction.DeployAccountV3.tryInto (value : model.transaction.DeployAccountV3) :
    Except FromModelError DeployAccountTransactionV3 := do
  let resource_bounds ← (value.resource_bounds.getD model.ResourceBounds.default).tryInto
  let ndam ← parse_volition_domain value.nonce_data_availability_mode
  let fdam ← parse_volition_domain value.fee_data_availability_mode
  return { signature := (value.signature.getD model.AccountSignature.default).parts
           nonce := value.nonce.getD 0
           contract_address_salt := value.address_salt.getD 0
           constructor_calldata := value.calldata
           class_hash := value.class_hash.getD 0
           resource_bounds
           tip := value.tip
           paymaster_data := value.paymaster_data
           nonce_data_availability_mode := ndam
           fee_data_availability_mode := fdam }

/-- `TryFrom<model::transaction::InvokeV0> for InvokeTransactionV0`. -/
def model.transaction.InvokeV0.tryInto (value : model.transaction.InvokeV0) :
    Except FromModelError InvokeTransactionV0 :=
  .ok { max_fee := value.max_fee.getD 0
        signature := (value.signature.getD model.AccountSignature.default).parts
        contract_address := value.address.getD 0
        entry_point_selector := value.entry_point_selector.getD 0
        calldata := value.calldata }

/-- `TryFrom<model::transaction::InvokeV1> for InvokeTransactionV1`. -/
def model.transaction.InvokeV1.tryInto (value : model.transaction.InvokeV1) :
    Except FromModelError InvokeTransactionV1 :=
  .ok { sender_address := value.sender.getD 0
        calldata := value.calldata
        max_fee := value.max_fee.getD 0
        signature := (value.signature.getD model.AccountSignature.default).parts
        nonce := value.nonce.getD 0 }

/-- `TryFrom<model::transaction::InvokeV3> for InvokeTransactionV3`. -/
def model.transaction.InvokeV3.tryInto (value : model.transaction.InvokeV3) :
    Except FromModelError InvokeTransactionV3 := do
  let resource_bounds ← (value.resource_bounds.getD model.ResourceBounds.default).tryInto
  let ndam ← parse_volition_domain value.nonce_data_availability_mode
  let fdam ← parse_volition_domain value.fee_data_availability_mode
  return { sender_address := value.sender.getD 0
           calldata := value.calldata
           signature := (value.signature.getD model.AccountSignature.default).parts
           nonce := value.nonce.getD 0
           resource_bounds
           tip := value.tip
           paymaster_data := value.paymaster_data
           account_deployment_data := value.account_deployment_data
           nonce_data_availability_mode := ndam
           fee_data_availability_mode := fdam }

/-- `TryFrom<model::transaction::L1HandlerV0> for L1HandlerTransaction`. -/
def model.transaction.L1HandlerV0.tryInto (value : model.transaction.L1HandlerV0) :
    Except FromModelError L1HandlerTransaction :=
  match felt_to_u64 (value.nonce.getD 0) with
  | none => .error (.invalid_field "L1HandlerV0::nonce")
  | some nonce =>
    .ok { version := 0
          nonce
          contract_address := value.address.getD 0
          entry_point_selector := value.entry_point_selector.getD 0
          calldata := value.calldata }

/-- `TryFrom<model::transaction::Txn> for Transaction`. -/
def model.transaction.Txn.tryInto : model.transaction.Txn → Except FromModelError Madara.Transaction
  | .DeclareV0 tx => do return .Declare (.V0 (← tx.tryInto))
  | .DeclareV1 tx => do return .Declare (.V1 (← tx.tryInto))
  | .DeclareV2 tx => do return .Declare (.V2 (← tx.tryInto))
  | .DeclareV3 tx => do return .Declare (.V3 (← tx.tryInto))
  | .Deploy tx => do return .Deploy (← tx.tryInto)
  | .DeployAccountV1 tx => do return .DeployAccount (.V1 (← tx.tryInto))
  | .DeployAccountV3 tx => do return .DeployAccount (.V3 (← tx.tryInto))
  | .InvokeV0 tx => do return .Invoke (.V0 (← tx.tryInto))
  | .InvokeV1 tx => do return .Invoke (.V1 (← tx.tryInto))
  | .InvokeV3 tx => do return .Invoke (.V3 (← tx.tryInto))
  | .L1Handler tx => do return .L1Handler (← tx.tryInto)

/-- `TryFrom<model::Transaction> for TransactionWithHash` (the only two
required top-level fields; missing ones are `missing_field` errors with
their qualified names). -/
def model.Transaction.tryInto (value : model.Transaction) :
    Except FromModelError TransactionWithHash :=
  match value.txn with
  | none => .error (.missing_field "Transaction::transaction")
  | some txn => do
    let transaction ← txn.tryInto
    match value.transaction_hash with
    | none => .error (.missing_field "Transaction::transaction_hash")
    | some hash => return { transaction, hash }

/-- The `execution_result` helper. -/
def execution_result : Option String → ExecutionResult
  | some reason => .Reverted reason
  | none => .Succeeded

/-- `TryFrom<model::MessageToL1> for MsgToL1`. -/
def model.MessageToL1.tryInto (value : model.MessageToL1) : Except FromModelError MsgToL1 :=
  .ok { from_address := value.from_address.getD 0
        to_address := value.to_address.getD 0
        payload := value.payload }

/-- `TryFrom<model::receipt::ExecutionResources> for ExecutionResources`
(zero counters decode to `None`; `data_availability` is read from the wire
gas felts; `total_gas_consumed` is left at `Default`). -/
def model.receipt.ExecutionResources.tryInto (value : model.receipt.ExecutionResources) :
    Except FromModelError Madara.ExecutionResources :=
  let opt : Nat → Option Nat := fun builtin => if builtin = 0 then none else some builtin
  let builtins := value.builtins.getD model.receipt.BuiltinCounter.default
  match felt_to_u128 (value.l1_gas.getD 0) with
  | none => .error (.invalid_field "ExecutionResources::l1_gas")
  | some l1_gas =>
    match felt_to_u128 (value.l1_data_gas.getD 0) with
    | none => .error (.invalid_field "ExecutionResources::l1_data_gas")
    | some l1_data_gas =>
      .ok { steps := value.steps
            memory_holes := opt value.memory_holes
            range_check_builtin_applications := opt builtins.range_check
            pedersen_builtin_applications := opt builtins.pedersen
            poseidon_builtin_applications := opt builtins.poseidon
            ec_op_builtin_applications := opt builtins.ec_op
            ecdsa_builtin_applications := opt builtins.ecdsa
            bitwise_builtin_applications := opt builtins.bitwise
            keccak_builtin_applications := opt builtins.keccak
            segment_arena_builtin := none
            data_availability := { l1_gas, l1_data_gas }
            total_gas_consumed := L1Gas.default }

/-- The common receipt-body decoding shared verbatim by every
`model::receipt::*::parse_model`: fee, messages, empty events, execution
resources, execution result. -/
def parse_receipt_common (common : model.receipt.Common) :
    Except FromModelError (FeePayment × List MsgToL1 × ExecutionResources × ExecutionResult) := do
  let actual_fee : FeePayment :=
    { unit := common.priceUnitGet.intoPU, amount := common.actual_fee.getD 0 }
  let messages_sent ← common.messages_sent.mapM model.MessageToL1.tryInto
  let execution_resources ← (common.execution_resources.getD
    model.receipt.ExecutionResources.default).tryInto
  return (actual_fee, messages_sent, execution_resources, execution_result common.revert_reason)

/-- `model::receipt::Invoke::parse_model`. -/
def model.receipt.Invoke.parse_model (self : model.receipt.Invoke) (transaction_hash : Felt) :
    Except FromModelError InvokeTransactionReceipt := do
  let (actual_fee, messages_sent, execution_resources, exec_result) ←
    parse_receipt_common (self.common.getD model.receipt.Common.default)
  return { transaction_hash, actual_fee, messages_sent, events := [],
           execution_resources, execution_result := exec_result }

/-- `model::receipt::L1Handler::parse_model`. -/
def model.receipt.L1Handler.parse_model (self : model.receipt.L1Handler)
    (transaction_hash : Felt) : Except FromModelError L1HandlerTransactionReceipt := do
  let (actual_fee, messages_sent, execution_resources, exec_result) ←
    parse_receipt_common (self.common.getD model.receipt.Common.default)
  return { transaction_hash, actual_fee, messages_sent, events := [],
           execution_resources, execution_result := exec_result,
           message_hash := self.msg_hash.getD 0 }

/-- `model::receipt::Declare::parse_model`. -/
def model.receipt.Declare.parse_model (self : model.receipt.Declare) (transaction_hash : Felt) :
    Except FromModelError DeclareTransactionReceipt := do
  let (actual_fee, messages_sent, execution_resources, exec_result) ←
    parse_receipt_common (self.common.getD model.receipt.Common.default)
  return { transaction_hash, actual_fee, messages_sent, events := [],
           execution_resources, execution_result := exec_result }

/-- `model::receipt::Deploy::parse_model`. -/
def model.receipt.Deploy.parse_model (self : model.receipt.Deploy) (transaction_hash : Felt) :
    Except FromModelError DeployTransactionReceipt := do
  let (actual_fee, messages_sent, execution_resources, exec_result) ←
    parse_receipt_common (self.common.getD model.receipt.Common.default)
  return { transaction_hash, actual_fee, messages_sent, events := [],
           execution_resources, execution_result := exec_result,
           contract_address := self.contract_address.getD 0 }

/-- `model::receipt::DeployAccount::parse_model`. -/
def model.receipt.DeployAccount.parse_model (self : model.receipt.DeployAccount)
    (transaction_hash : Felt) : Except FromModelError DeployAccountTransactionReceipt := do
  let (actual_fee, messages_sent, execution_resources, exec_result) ←
    parse_receipt_common (self.common.getD model.receipt.Common.default)
  return { transaction_hash, actual_fee, messages_sent, events := [],
           execution_resources, execution_result := exec_result,
           contract_address := self.contract_address.getD 0 }

/-- `model::Receipt::parse_model` (a missing `r#type` one-of is a
`missing_field` error). -/
def model.Receipt.parse_model (self : model.Receipt) (transaction_hash : Felt) :
    Except FromModelError TransactionReceipt :=
  match self.type with
  | none => .error (.missing_field "Receipt::type")
  | some t =>
    match t with
    | .Invoke tx => do return .Invoke (← tx.parse_model transaction_hash)
    | .L1Handler tx => do return .L1Handler (← tx.parse_model transaction_hash)
    | .Declare tx => do return .Declare (← tx.parse_model transaction_hash)
    | .DeprecatedDeploy tx => do return .Deploy (← tx.parse_model transaction_hash)
    | .DeployAccount tx => do return .DeployAccount (← tx.parse_model transaction_hash)

/-- `TryFrom<model::TransactionWithReceipt> for TransactionWithReceipt`. -/
def model.TransactionWithReceipt.tryInto (value : model.TransactionWithReceipt) :
    Except FromModelError Madara.TransactionWithReceipt := do
  let tx ← (value.transaction.getD model.Transaction.default).tryInto
  let receipt ← (value.receipt.getD model.Receipt.default).parse_model tx.hash
  return { transaction := tx.transaction, receipt }

/-! ### Internal → wire conversions (`From` impls in transactions.rs)

The `From` impls are total in Rust's types but panic (`expect`) when a
numeric field does not fit its wire width (the `TODO(dto-faillible-conversion)`
sites); those conversions return `Option` here, `none` modelling the
panic. -/

/-- `From<DataAvailabilityMode> for model::VolitionDomain`. -/
def DataAvailabilityMode.intoVD : DataAvailabilityMode → model.VolitionDomain
  | .L1 => .L1
  | .L2 => .L2

/-- `From<PriceUnit> for model::PriceUnit`. -/
def PriceUnit.toModelPU : PriceUnit → model.PriceUnit
  | .Wei => .Wei
  | .Fri => .Fri

/-- `From<ResourceBounds> for model::ResourceLimits`. -/
def ResourceBounds.toModel (value : ResourceBounds) : model.ResourceLimits :=
  { max_amount := some value.max_amount
    max_price_per_unit := some value.max_price_per_unit }

/-- `From<ResourceBoundsMapping> for model::ResourceBounds`. -/
def ResourceBoundsMapping.toModel (value : ResourceBoundsMapping) : model.ResourceBounds :=
  { l1_gas := some value.l1_gas.toModel, l2_gas := some value.l2_gas.toModel }

/-- `From<InvokeTransactionV0> for model::transaction::InvokeV0`. -/
def InvokeTransactionV0.toModel (value : InvokeTransactionV0) : model.transaction.InvokeV0 :=
  { max_fee := some value.max_fee
    signature := some ⟨value.signature⟩
    address := some value.contract_address
    entry_point_selector := some value.entry_point_selector
    calldata := value.calldata }

/-- `From<InvokeTransactionV1> for model::transaction::InvokeV1`. -/
def InvokeTransactionV1.toModel (value : InvokeTransactionV1) : model.transaction.InvokeV1 :=
  { sender := some value.sender_address
    max_fee := some value.max_fee
    signature := some ⟨value.signature⟩
    calldata := value.calldata
    nonce := some value.nonce }

/-- `From<InvokeTransactionV3> for model::transaction::InvokeV3`. -/
def InvokeTransactionV3.toModel (value : InvokeTransactionV3) : model.transaction.InvokeV3 :=
  { sender := some value.sender_address
    signature := some ⟨value.signature⟩
    calldata := value.calldata
    resource_bounds := some value.resource_bounds.toModel
    tip := value.tip
    paymaster_data := value.paymaster_data
    account_deployment_data := value.account_deployment_data
    nonce_data_availability_mode := value.nonce_data_availability_mode.intoVD.toInt
    fee_data_availability_mode := value.fee_data_availability_mode.intoVD.toInt
    nonce := some value.nonce }

/-- `From<L1HandlerTransaction> for model::transaction::L1HandlerV0`
(drops `version`; `nonce` goes through `Felt::from(u64)`). -/
def L1HandlerTransaction.toModel (value : L1HandlerTransaction) :
    model.transaction.L1HandlerV0 :=
  { nonce := some value.nonce
    address := some value.contract_address
    entry_point_selector := some value.entry_point_selector
    calldata := value.calldata }

/-- `From<DeclareTransactionV0> for model::transaction::DeclareV0`. -/
def DeclareTransactionV0.toModel (value : DeclareTransactionV0) : model.transaction.DeclareV0 :=
  { sender := some value.sender_address
    max_fee := some value.max_fee
    signature := some ⟨value.signature⟩
    class_hash := some value.class_hash }

/-- `From<DeclareTransactionV1> for model::transaction::DeclareV1`. -/
def DeclareTransactionV1.toModel (value : DeclareTransactionV1) : model.transaction.DeclareV1 :=
  { sender := some value.sender_address
    max_fee := some value.max_fee
    signature := some ⟨value.signature⟩
    class_hash := some value.class_hash
    nonce := some value.nonce }

/-- `From<DeclareTransactionV2> for model::transaction::DeclareV2`. -/
def DeclareTransactionV2.toModel (value : DeclareTransactionV2) : model.transaction.DeclareV2 :=
  { sender := some value.sender_address
    max_fee := some value.max_fee
    signature := some ⟨value.signature⟩
    class_hash := some value.class_hash
    nonce := some value.nonce
    compiled_class_hash := some value.compiled_class_hash }

/-- `From<DeclareTransactionV3> for model::transaction::DeclareV3`. -/
def DeclareTransactionV3.toModel (value : DeclareTransactionV3) : model.transaction.DeclareV3 :=
  { sender := some value.sender_address
    signature := some ⟨value.signature⟩
    class_hash := some value.class_hash
    nonce := some value.nonce
    compiled_class_hash := some value.compiled_class_hash
    resource_bounds := some value.resource_bounds.toModel
    tip := value.tip
    paymaster_data := value.paymaster_data
    account_deployment_data := value.account_deployment_data
    nonce_data_availability_mode := value.nonce_data_availability_mode.intoVD.toInt
    fee_data_availability_mode := value.fee_data_availability_mode.intoVD.toInt }

/-- `From<DeployTransaction> for model::transaction::Deploy`; the source
panics (`expect("DeployTransaction version is not an u32")`) when `version`
does not fit `u32` — modelled as `none`. -/
def DeployTransaction.toModel (value : DeployTransaction) : Option model.transaction.Deploy :=
  (felt_to_u32 value.version).map fun version =>
    { class_hash := some value.class_hash
      address_salt := some value.contract_address_salt
      calldata := value.constructor_calldata
      version }

/-- `From<DeployAccountTransactionV1> for model::transaction::DeployAccountV1`. -/
def DeployAccountTransactionV1.toModel (value : DeployAccountTransactionV1) :
    model.transaction.DeployAccountV1 :=
  { max_fee := some value.max_fee
    signature := some ⟨value.signature⟩
    class_hash := some value.class_hash
    nonce := some value.nonce
    address_salt := some value.contract_address_salt
    calldata := value.constructor_calldata }

/-- `From<DeployAccountTransactionV3> for model::transaction::DeployAccountV3`. -/
def DeployAccountTransactionV3.toModel (value : DeployAccountTransactionV3) :
    model.transaction.DeployAccountV3 :=
  { signature := some ⟨value.signature⟩
    class_hash := some value.class_hash
    nonce := some value.nonce
    address_salt := some value.contract_address_salt
    calldata := value.constructor_calldata
    resource_bounds := some value.resource_bounds.toModel
    tip := value.tip
    paymaster_data := value.paymaster_data
    nonce_data_availability_mode := value.nonce_data_availability_mode.intoVD.toInt
    fee_data_availability_mode := value.fee_data_availability_mode.intoVD.toInt }

/-- `From<Transaction> for model::transaction::Txn` (partial only at the
`Deploy` variant's version panic). -/
def Transaction.toModel : Transaction → Option model.transaction.Txn
  | .Invoke (.V0 tx) => some (.InvokeV0 tx.toModel)
  | .Invoke (.V1 tx) => some (.InvokeV1 tx.toModel)
  | .Invoke (.V3 tx) => some (.InvokeV3 tx.toModel)
  | .L1Handler tx => some (.L1Handler tx.toModel)
  | .Declare (.V0 tx) => some (.DeclareV0 tx.toModel)
  | .Declare (.V1 tx) => some (.DeclareV1 tx.toModel)
  | .Declare (.V2 tx) => some (.DeclareV2 tx.toModel)
  | .Declare (.V3 tx) => some (.DeclareV3 tx.toModel)
  | .Deploy tx => tx.toModel.map .Deploy
  | .DeployAccount (.V1 tx) => some (.DeployAccountV1 tx.toModel)
  | .DeployAccount (.V3 tx) => some (.DeployAccountV3 tx.toModel)

/-- `From<TransactionWithHash> for model::Transaction`. -/
def TransactionWithHash.toModel (value : TransactionWithHash) : Option model.Transaction :=
  value.transaction.toModel.map fun txn =>
    { transaction_hash := some value.hash, txn := some txn }

/-- `From<MsgToL1> for model::MessageToL1`. -/
def MsgToL1.toModel (value : MsgToL1) : model.MessageToL1 :=
  { from_address := some value.from_address
    payload := value.payload
    to_address := some value.to_address }

/-- `From<ExecutionResources> for model::receipt::ExecutionResources`;
the source `expect`s each builtin counter, `steps` and `memory_holes` to
fit `u32` — modelled as `none` when any does not. Note it writes
`total_gas_consumed` into the wire gas fields and drops
`data_availability` and `segment_arena_builtin`. -/
def ExecutionResources.toModel (value : ExecutionResources) :
    Option model.receipt.ExecutionResources :=
  if value.bitwise_builtin_applications.getD 0 < 2 ^ 32 ∧
      value.ecdsa_builtin_applications.getD 0 < 2 ^ 32 ∧
      value.ec_op_builtin_applications.getD 0 < 2 ^ 32 ∧
      value.pedersen_builtin_applications.getD 0 < 2 ^ 32 ∧
      value.range_check_builtin_applications.getD 0 < 2 ^ 32 ∧
      value.poseidon_builtin_applications.getD 0 < 2 ^ 32 ∧
      value.keccak_builtin_applications.getD 0 < 2 ^ 32 ∧
      value.steps < 2 ^ 32 ∧ value.memory_holes.getD 0 < 2 ^ 32 then
    some
      { builtins := some
          { bitwise := value.bitwise_builtin_applications.getD 0
            ecdsa := value.ecdsa_builtin_applications.getD 0
            ec_op := value.ec_op_builtin_applications.getD 0
            pedersen := value.pedersen_builtin_applications.getD 0
            range_check := value.range_check_builtin_applications.getD 0
            poseidon := value.poseidon_builtin_applications.getD 0
            keccak := value.keccak_builtin_applications.getD 0
            output := 0
            add_mod := 0
            mul_mod := 0
            range_check96 := 0 }
        steps := value.steps
        memory_holes := value.memory_holes.getD 0
        l1_gas := some value.total_gas_consumed.l1_gas
        l1_data_gas := some value.total_gas_consumed.l1_data_gas
        total_l1_gas := some value.total_gas_consumed.l1_gas }
  else none

/-- The `model::receipt::Common` literal shared verbatim by every receipt
encode impl. -/
def receipt_common_to_model (actual_fee : FeePayment) (messages_sent : List MsgToL1)
    (er : ExecutionResources) (res : ExecutionResult) : Option model.receipt.Common :=
  er.toModel.map fun x =>
    { actual_fee := some actual_fee.amount
      price_unit := actual_fee.unit.toModelPU.toInt
      messages_sent := messages_sent.map MsgToL1.toModel
      execution_resources := some x
      revert_reason := res.revert_reason }

/-- `From<InvokeTransactionReceipt> for model::receipt::Invoke`. -/
def InvokeTransactionReceipt.toModel (value : InvokeTransactionReceipt) :
    Option model.receipt.Invoke :=
  (receipt_common_to_model value.actual_fee value.messages_sent value.execution_resources
    value.execution_result).map fun common => { common := some common }

/-- `From<L1HandlerTransactionReceipt> for model::receipt::L1Handler`. -/
def L1HandlerTransactionReceipt.toModel (value : L1HandlerTransactionReceipt) :
    Option model.receipt.L1Handler :=
  (receipt_common_to_model value.actual_fee value.messages_sent value.execution_resources
    value.execution_result).map fun common =>
      { common := some common, msg_hash := some value.message_hash }

/-- `From<DeclareTransactionReceipt> for model::receipt::Declare`. -/
def DeclareTransactionReceipt.toModel (value : DeclareTransactionReceipt) :
    Option model.receipt.Declare :=
  (receipt_common_to_model value.actual_fee value.messages_sent value.execution_resources
    value.execution_result).map fun common => { common := some common }

/-- `From<DeployTransactionReceipt> for model::receipt::Deploy`. -/
def DeployTransactionReceipt.toModel (value : DeployTransactionReceipt) :
    Option model.receipt.Deploy :=
  (receipt_common_to_model value.actual_fee value.messages_sent value.execution_resources
    value.execution_result).map fun common =>
      { common := some common, contract_address := some value.contract_address }

/-- `From<DeployAccountTransactionReceipt> for model::receipt::DeployAccount`. -/
def DeployAccountTransactionReceipt.toModel (value : DeployAccountTransactionReceipt) :
    Option model.receipt.DeployAccount :=
  (receipt_common_to_model value.actual_fee value.messages_sent value.execution_resources
    value.execution_result).map fun common =>
      { common := some common, contract_address := some value.contract_address }

/-- `From<TransactionReceipt> for model::Receipt`. -/
def TransactionReceipt.toModel : TransactionReceipt → Option model.Receipt
  | .Invoke receipt => receipt.toModel.map fun r => { type := some (.Invoke r) }
  | .L1Handler receipt => receipt.toModel.map fun r => { type := some (.L1Handler r) }
  | .Declare receipt => receipt.toModel.map fun r => { type := some (.Declare r) }
  | .Deploy receipt => receipt.toModel.map fun r => { type := some (.DeprecatedDeploy r) }
  | .DeployAccount receipt => receipt.toModel.map fun r => { type := some (.DeployAccount r) }

/-- `From<TransactionWithReceipt> for model::TransactionWithReceipt`
(the wire transaction hash is `receipt.transaction_hash()`). -/
def TransactionWithReceipt.toModel (value : TransactionWithReceipt) :
    Option model.TransactionWithReceipt :=
  value.transaction.toModel.bind fun txn =>
    value.receipt.toModel.map fun receipt =>
      { transaction := some
          { transaction_hash := some value.receipt.transaction_hash, txn := some txn }
        receipt := some receipt }

/-! ### read_transactions_stream -/

/-- `sync_handlers::Error`, modelled from the spec's error taxonomy
("typed client-facing errors"; a terminal marker distinguishes end-of-
stream from error) and the two constructors `transactions.rs` uses:
`Error::EndOfStream` and `Error::bad_request(message)`. `or_bad_request`
attaches its context message as a bad-request error. -/
inductive sync_handlers.Error where
  | EndOfStream
  | BadRequest (msg : String)
  deriving Repr, DecidableEq

/-- `Error::bad_request`. -/
def sync_handlers.Error.bad_request (msg : String) : sync_handlers.Error :=
  .BadRequest msg

/-- The `handle_fin` closure in `read_transactions_stream`, for expected
count `total` at loop index `i`. -/
def handle_fin (total i : Nat) : sync_handlers.Error :=
  if i = 0 then .EndOfStream
  else .bad_request s!"Expected {total} messages in stream, got {i}"

/-- The `for i in 0..transactions_count` loop of
`read_transactions_stream`: `remaining` counts iterations left
(`total - i`), `msgs` is the rest of the response stream (a finite stream
is a list of responses). -/
def read_transactions_stream_aux (total : Nat) :
    Nat → Nat → List model.TransactionsResponse →
      Except sync_handlers.Error (List TransactionWithReceipt)
  | _, 0, _ => .ok []
  | i, remaining + 1, msgs =>
    match msgs with
    | [] => .error (handle_fin total i)
    | r :: rest =>
      match r.transaction_message with
      | none => .error (.bad_request "No message")
      | some .Fin => .error (handle_fin total i)
      | some (.TransactionWithReceipt message) =>
        match message.tryInto with
        | .error _ => .error (.bad_request "Converting transaction with receipt")
        | .ok val => (read_transactions_stream_aux total (i + 1) remaining rest).map (val :: ·)

/-- `read_transactions_stream`. -/
def read_transactions_stream (res : List model.TransactionsResponse)
    (transactions_count : Nat) : Except sync_handlers.Error (List TransactionWithReceipt) :=
  read_transactions_stream_aux transactions_count 0 transactions_count res

/-- A response carrying a transaction-with-receipt message. -/
def twr_response (w : model.TransactionWithReceipt) : model.TransactionsResponse :=
  ⟨some (.TransactionWithReceipt w)⟩

/-- The `Fin` terminal-marker response. -/
def fin_response : model.TransactionsResponse := ⟨some .Fin⟩

/-! ### Round-trip well-formedness

`wf` bounds are the machine-integer invariants of the Rust types
(`u64`/`u128` fields); `roundtrippable` additionally excludes exactly the
information the encode/decode pair loses (receipt events, the execution
resources' gas/`segment_arena` fields, `Some(0)` counters, the L1 handler
version, oversized `Deploy` versions). -/

/-- The `u64`/`u128` range invariants of `ResourceBounds`' Rust fields. -/
def ResourceBounds.wf (b : ResourceBounds) : Bool :=
  decide (b.max_amount < 2 ^ 64) && decide (b.max_price_per_unit < 2 ^ 128)

/-- Range invariants of both gas bounds. -/
def ResourceBoundsMapping.wf (m : ResourceBoundsMapping) : Bool :=
  m.l1_gas.wf && m.l2_gas.wf

/-- A transaction survives the wire round trip: resource bounds fit their
wire widths, an `L1Handler` has version `0` (the wire drops the version and
decode restores `0`), a `Deploy` version fits `u32` (else encode panics). -/
def Transaction.roundtrippable : Transaction → Bool
  | .Invoke (.V0 _) => true
  | .Invoke (.V1 _) => true
  | .Invoke (.V3 tx) => tx.resource_bounds.wf
  | .L1Handler tx => decide (tx.version = 0) && decide (tx.nonce < 2 ^ 64)
  | .Declare (.V0 _) => true
  | .Declare (.V1 _) => true
  | .Declare (.V2 _) => true
  | .Declare (.V3 tx) => tx.resource_bounds.wf
  | .Deploy tx => decide (tx.version < 2 ^ 32)
  | .DeployAccount (.V1 _) => true
  | .DeployAccount (.V3 tx) => tx.resource_bounds.wf

/-- A builtin counter survives the round trip: `None` is fine, `Some k`
must have `0 < k` (the wire encodes `None` as `0` and decode maps `0` back
to `None`) and fit `u32` (else encode panics). -/
def counter_ok : Option Nat → Bool
  | none => true
  | some k => decide (0 < k) && decide (k < 2 ^ 32)

/-- Execution resources survive the round trip: counters as in
`counter_ok`, `steps` fits `u32`, and the fields the wire format drops
(`segment_arena_builtin`, `data_availability`, `total_gas_consumed`) are at
the values decode reconstructs (`None` / zero gas). -/
def ExecutionResources.roundtrippable (r : ExecutionResources) : Bool :=
  decide (r.steps < 2 ^ 32) && counter_ok r.memory_holes &&
    counter_ok r.range_check_builtin_applications &&
    counter_ok r.pedersen_builtin_applications &&
    counter_ok r.poseidon_builtin_applications &&
    counter_ok r.ec_op_builtin_applications &&
    counter_ok r.ecdsa_builtin_applications &&
    counter_ok r.bitwise_builtin_applications &&
    counter_ok r.keccak_builtin_applications &&
    decide (r.segment_arena_builtin = none) &&
    decide (r.data_availability = L1Gas.default) &&
    decide (r.total_gas_consumed = L1Gas.default)

/-- A receipt survives the round trip: its events are empty (decode always
leaves them empty) and its execution resources survive. -/
def TransactionReceipt.roundtrippable : TransactionReceipt → Bool
  | .Invoke r => decide (r.events = []) && r.execution_resources.roundtrippable
  | .L1Handler r => decide (r.events = []) && r.execution_resources.roundtrippable
  | .Declare r => decide (r.events = []) && r.execution_resources.roundtrippable
  | .Deploy r => decide (r.events = []) && r.execution_resources.roundtrippable
  | .DeployAccount r => decide (r.events = []) && r.execution_resources.roundtrippable

/-- All-zero execution resources. -/
def er_zero : ExecutionResources :=
  { steps := 0, memory_holes := none, range_check_builtin_applications := none,
    pedersen_builtin_applications := none, poseidon_builtin_applications := none,
    ec_op_builtin_applications := none, ecdsa_builtin_applications := none,
    bitwise_builtin_applications := none, keccak_builtin_applications := none,
    segment_arena_builtin := none, data_availability := L1Gas.default,
    total_gas_consumed := L1Gas.default }

/-- A concrete transaction-with-receipt whose receipt contains one event:
the simplest value on which the wire round trip is lossy. -/
def twr_with_event : TransactionWithReceipt where
  transaction := .Invoke (.V0
    { max_fee := 0
      signature := []
      contract_address := 0
      entry_point_selector := 0
      calldata := [] })
  receipt := .Invoke
    { transaction_hash := 0
      actual_fee := { amount := 0, unit := .Wei }
      messages_sent := []
      events := [.mk]
      execution_resources := er_zero
      execution_result := .Succeeded }

/-- What the wire round trip actually returns for `twr_with_event`: the
same value with the receipt's events dropped. -/
def twr_with_event_decoded : TransactionWithReceipt :=
  { twr_with_event with
    receipt := .Invoke
      { transaction_hash := 0
        actual_fee := { amount := 0, unit := .Wei }
        messages_sent := []
        events := []
        execution_resources := er_zero
        execution_result := .Succeeded } }

/-- A minimal well-formed wire transaction-with-receipt message. -/
def wire_twr0 : model.TransactionWithReceipt where
  transaction := some
    { transaction_hash := some 0
      txn := some (.InvokeV0 ⟨none, none, none, none, []⟩) }
  receipt := some { type := some (.Invoke ⟨none⟩) }

/-- The value `wire_twr0` decodes to. -/
def twr0 : TransactionWithReceipt where
  transaction := .Invoke (.V0
    { max_fee := 0
      signature := []
      contract_address := 0
      entry_point_selector := 0
      calldata := [] })
  receipt := .Invoke
    { transaction_hash := 0
      actual_fee := { amount := 0, unit := .Wei }
      messages_sent := []
      events := []
      execution_resources := er_zero
      execution_result := .Succeeded }

end Madara

namespace Madara

/-- Concrete pipeline interface used for counterexamples and witnesses:
`next_input_block_n = 10`, `input_batch_size = 1`, `is_empty = true`
(no outstanding work). -/
def pi0 : ForwardPipelineIface Unit :=
  { next_input_block_n := fun _ => 10, input_batch_size := fun _ => 1, is_empty := fun _ => true }

/-- Concrete probe interface whose state never yields a known block. -/
def pr0 : ProbeIface Unit :=
  { highest_known_block_from_state := fun _ => none }

/-- Concrete controller state: no probe configured, `stop_at_block_n = 5`,
no L1 head yet, empty pipeline whose next input block is `10`. -/
def s0 : SyncController Unit Unit :=
  { forward_pipeline := (), probe := false, stop_at_block_n := some 5,
    current_l1_head := none, current_probe_future := none,
    probe_state := (), probe_wait_deadline := none }

variable {Pl PS : Type}

/-- C1: `target_height` is `min(S, max(H, P))` with absent terms dropping
out of their respective `min`/`max` (`P` present only when a probe is
configured), and it is `None` exactly when `H`, `P`, and `S` are all
absent. -/
theorem target_height_min_max (pr : ProbeIface PS) (s : SyncController Pl PS) :
    target_height pr s =
      spec_min_opt s.stop_at_block_n
        (spec_max_opt (s.current_l1_head.map (·.block_number)) (probe_height pr s)) ∧
    (target_height pr s = none ↔
      s.current_l1_head.map (·.block_number) = none ∧ probe_height pr s = none ∧
        s.stop_at_block_n = none) := by
  unfold target_height probe_height
  rcases s.current_l1_head with _ | h <;>
    rcases hp : s.probe with _ | _ <;>
      simp only [hp, if_true, if_false, Option.map_some, Option.map_none] <;>
        rcases pr.highest_known_block_from_state s.probe_state with _ | p <;>
          rcases s.stop_at_block_n with _ | b <;>
            simp [aggregate_options, spec_min_opt, spec_max_opt, Nat.min_comm]

/-- C3: at most one probe call is outstanding: while the
`current_probe_future` slot is full, the scheduling phase changes nothing
(no second probe call is issued), and a loop iteration leaves the slot
holding the same future or clears it — it never replaces it with a new
one. -/
theorem probe_at_most_one_outstanding (pi : ForwardPipelineIface Pl) (pr : ProbeIface PS)
    (s : SyncController Pl PS) (f : ProbeFuture PS)
    (hf : s.current_probe_future = some f) :
    schedule_probe pi pr s = s ∧
      ∀ ev s', run_inner_step pi pr s ev = .continue_ s' →
        s'.current_probe_future = some f ∨ s'.current_probe_future = none := by
  have hsched : schedule_probe pi pr s = s := by
    unfold schedule_probe
    simp [hf]
  refine ⟨hsched, ?_⟩
  intro ev s' hstep
  cases ev with
  | l1Update newHead =>
      simp only [run_inner_step, hsched, IterResult.continue_.injEq] at hstep
      subst hstep; exact Or.inl hf
  | probeCompleted res now =>
      cases res with
      | ok ps =>
          simp only [run_inner_step, IterResult.continue_.injEq] at hstep
          subst hstep; exact Or.inr rfl
      | error e => simp [run_inner_step] at hstep
  | pipelineRan res newPipeline =>
      cases res with
      | ok u =>
          simp only [run_inner_step, hsched, IterResult.continue_.injEq] at hstep
          subst hstep; exact Or.inl hf
      | error e => simp [run_inner_step] at hstep
  | allDisabled => simp [run_inner_step] at hstep

/-- Witness for `probe_at_most_one_outstanding` at a concrete state. -/
theorem probe_at_most_one_outstanding_witness :
    let s : SyncController Unit Unit :=
      { s0 with probe := true,
                current_probe_future := some ⟨none, 10, 1, ()⟩ }
    schedule_probe pi0 pr0 s = s :=
  (probe_at_most_one_outstanding pi0 pr0 _ ⟨none, 10, 1, ()⟩ rfl).1

/-- C4: a new probe call is issued during an iteration's scheduling phase
if and only if a probe is configured, no probe call is in flight, and the
pipeline cannot run — where the pipeline can run exactly when it has
outstanding work or `target_height` is present and at least
`next_input_block_n`. -/
theorem probe_issued_iff (pi : ForwardPipelineIface Pl) (pr : ProbeIface PS)
    (s : SyncController Pl PS) :
    (schedule_probe pi pr s).current_probe_future ≠ s.current_probe_future ↔
      s.probe = true ∧ s.current_probe_future = none ∧
        ¬(pi.is_empty s.forward_pipeline = false ∨
          ∃ t, target_height pr s = some t ∧ pi.next_input_block_n s.forward_pipeline ≤ t) := by
  have hcr : can_run_pipeline pi pr s = true ↔
      (pi.is_empty s.forward_pipeline = false ∨
        ∃ t, target_height pr s = some t ∧ pi.next_input_block_n s.forward_pipeline ≤ t) := by
    unfold can_run_pipeline
    rcases ht : target_height pr s with _ | t <;>
      cases he : pi.is_empty s.forward_pipeline <;> simp [ht, he, Option.any]
  unfold schedule_probe
  cases hp : s.probe with
  | false => simp
  | true =>
      rcases hslot : s.current_probe_future with _ | f
      · cases hcan : can_run_pipeline pi pr s with
        | false =>
            simp only [hslot, Option.isNone_none, hcan, Bool.not_false, Bool.and_self, if_true]
            simp [← hcr, hcan]
        | true =>
            simp only [hslot, hcan, Bool.not_true, Bool.and_false, if_false]
            simp [← hcr, hcan, hslot]
      · simp [hslot, ← hcr]

/-- C7 counterexample: with no probe configured, `stop_at_block_n = 5`, an
empty pipeline whose next input block is `10`, and no L1 head, the select's
`else` branch is reachable and `run_inner` exits with `Ok(())` although
`target_height` is `Some 5` — not absent as the claim requires. -/
theorem run_inner_exit_with_target_present :
    branch_enabled pi0 pr0 s0 .allDisabled ∧
      run_inner_step pi0 pr0 s0 .allDisabled = .exitOk ∧
        target_height pr0 s0 = some 5 := by
  refine ⟨⟨?_, ?_⟩, rfl, rfl⟩
  · rfl
  · intro h
    have : can_run_pipeline pi0 pr0 s0 = false := by decide
    rw [this] at h
    exact Bool.false_ne_true h.2

/-- C7 amended: a `run_inner` loop iteration breaks out with `Ok(())`
exactly when the select's `else` branch fires, and that branch can fire
exactly when — after the probe-scheduling phase — no probe call is
outstanding and the pipeline branch is disabled (`target_height` absent or
the pipeline cannot run); the L1-head branch delivering nothing further is
part of the `else` event itself. -/
theorem run_inner_exit_ok_iff (pi : ForwardPipelineIface Pl) (pr : ProbeIface PS)
    (s : SyncController Pl PS) (ev : SelectBranch Pl PS)
    (henabled : branch_enabled pi pr s ev) :
    run_inner_step pi pr s ev = .exitOk ↔
      ev = .allDisabled ∧ (schedule_probe pi pr s).current_probe_future = none ∧
        (target_height pr s = none ∨ can_run_pipeline pi pr s = false) := by
  constructor
  · intro hstep
    cases ev with
    | l1Update newHead => simp [run_inner_step] at hstep
    | probeCompleted res now => cases res <;> simp [run_inner_step] at hstep
    | pipelineRan res newPipeline => cases res <;> simp [run_inner_step] at hstep
    | allDisabled =>
        obtain ⟨hslot, hnot⟩ := henabled
        refine ⟨rfl, hslot, ?_⟩
        rcases ht : target_height pr s with _ | t
        · exact Or.inl rfl
        · cases hcan : can_run_pipeline pi pr s with
          | false => exact Or.inr rfl
          | true => exact absurd ⟨by simp [ht], hcan⟩ hnot
  · rintro ⟨rfl, -, -⟩
    rfl

/-- Witness for `run_inner_exit_ok_iff` at the concrete state `s0`. -/
theorem run_inner_exit_ok_iff_witness :
    run_inner_step pi0 pr0 s0 .allDisabled = .exitOk ↔
      (SelectBranch.allDisabled : SelectBranch Unit Unit) = .allDisabled ∧
        (schedule_probe pi0 pr0 s0).current_probe_future = none ∧
          (target_height pr0 s0 = none ∨ can_run_pipeline pi0 pr0 s0 = false) :=
  run_inner_exit_ok_iff pi0 pr0 s0 .allDisabled
    ⟨rfl, fun h => Bool.false_ne_true ((by decide : can_run_pipeline pi0 pr0 s0 = false) ▸ h).2⟩

/-- C8: an error from a completed probe call, and an error from the forward
pipeline's `run`, each propagate out of `run_inner`'s loop as the iteration
outcome `Err(e)` — never masked or retried. -/
theorem errors_propagate (pi : ForwardPipelineIface Pl) (pr : ProbeIface PS)
    (s : SyncController Pl PS) (e : AnyhowError) (now : Nat) (newPipeline : Pl) :
    run_inner_step pi pr s (.probeCompleted (.error e) now) = .exitErr e ∧
      run_inner_step pi pr s (.pipelineRan (.error e) newPipeline) = .exitErr e :=
  ⟨rfl, rfl⟩

/-- C9: (1) when a probe completes at time `now`, the continuing state's
cooldown deadline is `now + PROBE_WAIT_DELAY`; (2) a newly issued probe
future captures the pending deadline and cannot start its query strictly
before that deadline; (3) the pipeline select branch is enabled
independently of the cooldown deadline, so the cooldown never delays
pipeline progress. -/
theorem probe_cooldown (pi : ForwardPipelineIface Pl) (pr : ProbeIface PS)
    (s : SyncController Pl PS) :
    (∀ res now s', run_inner_step pi pr s (.probeCompleted res now) = .continue_ s' →
        s'.probe_wait_deadline = some (now + PROBE_WAIT_DELAY)) ∧
    (∀ f, s.current_probe_future = none →
        (schedule_probe pi pr s).current_probe_future = some f →
          f.wait_until = s.probe_wait_deadline ∧
            ∀ d t, s.probe_wait_deadline = some d → t < d → ¬f.can_start_query_at t) ∧
    (∀ d res newPl,
        branch_enabled pi pr { s with probe_wait_deadline := d } (.pipelineRan res newPl) ↔
          branch_enabled pi pr s (.pipelineRan res newPl)) := by
  refine ⟨?_, ?_, ?_⟩
  · intro res now s' hstep
    cases res with
    | ok ps =>
        simp only [run_inner_step, IterResult.continue_.injEq] at hstep
        subst hstep; rfl
    | error e => simp [run_inner_step] at hstep
  · intro f hnone hissued
    unfold schedule_probe at hissued
    cases hp : s.probe with
    | false => rw [hp] at hissued; simp [hnone] at hissued
    | true =>
        rw [hp] at hissued
        cases hcan : can_run_pipeline pi pr s with
        | true => rw [hcan] at hissued; simp [hnone] at hissued
        | false =>
            rw [hcan] at hissued
            simp only [hnone, Option.isNone_none, Bool.not_false, Bool.and_self, if_true,
              Option.some.injEq] at hissued
            subst hissued
            refine ⟨rfl, ?_⟩
            intro d t hd ht hcsq
            exact absurd (hcsq d hd) (Nat.not_le_of_lt ht)
  · intro d res newPl
    exact Iff.rfl

/-- Witness for `probe_cooldown`: at a state with a pending deadline `5`,
the issued probe future captures deadline `5` and cannot start its query at
time `3`. -/
theorem probe_cooldown_witness :
    let s : SyncController Unit Unit :=
      { s0 with probe := true, stop_at_block_n := none, probe_wait_deadline := some 5 }
    (schedule_probe pi0 pr0 s).current_probe_future = some ⟨some 5, 10, 1, ()⟩ ∧
      ¬((⟨some 5, 10, 1, ()⟩ : ProbeFuture Unit).can_start_query_at 3) := by
  intro s
  have h := (probe_cooldown pi0 pr0 s).2.1 ⟨some 5, 10, 1, ()⟩ rfl rfl
  exact ⟨rfl, h.2 5 3 rfl (by decide)⟩

end Madara

namespace Madara

/-! ### Round-trip lemmas for the wire conversions -/

variable {Pl PS : Type}

/-- Messages to L1 survive the round trip exactly. -/
theorem msg_to_l1_roundtrip (m : MsgToL1) : m.toModel.tryInto = .ok m := rfl

/-- Lists of messages survive the round trip exactly. -/
theorem msgs_roundtrip (l : List MsgToL1) :
    (l.map MsgToL1.toModel).mapM model.MessageToL1.tryInto = .ok l := by
  induction l with
  | nil => rfl
  | cons m rest ih =>
      simp only [List.map_cons, List.mapM_cons, msg_to_l1_roundtrip, ih]
      rfl

/-- Data-availability modes survive the wire enum discriminants. -/
theorem volition_roundtrip (d : DataAvailabilityMode) :
    parse_volition_domain d.intoVD.toInt = .ok d := by
  cases d <;> rfl

/-- Execution results survive via the optional revert reason. -/
theorem execution_result_roundtrip (res : ExecutionResult) :
    execution_result res.revert_reason = res := by
  cases res <;> rfl

/-- Resource bounds survive the round trip when they fit their wire
widths. -/
theorem resource_bounds_roundtrip (b : ResourceBounds) (h : b.wf = true) :
    b.toModel.tryInto = .ok b := by
  simp only [ResourceBounds.wf, Bool.and_eq_true, decide_eq_true_eq] at h
  unfold model.ResourceLimits.tryInto ResourceBounds.toModel felt_to_u64 felt_to_u128
  rw [Option.getD_some, Option.getD_some, if_pos h.1, if_pos h.2]

/-- Resource-bounds mappings survive the round trip when both bounds
fit. -/
theorem resource_bounds_mapping_roundtrip (m : ResourceBoundsMapping) (h : m.wf = true) :
    m.toModel.tryInto = .ok m := by
  simp only [ResourceBoundsMapping.wf, Bool.and_eq_true] at h
  simp only [model.ResourceBounds.tryInto, ResourceBoundsMapping.toModel, Option.getD_some,
    resource_bounds_roundtrip _ h.1, resource_bounds_roundtrip _ h.2]
  rfl

/-- A round-trippable optional counter survives the wire's zero-as-absent
encoding, and its wire value fits `u32`. -/
theorem counter_getD (o : Option Nat) (h : counter_ok o = true) :
    (if o.getD 0 = 0 then none else some (o.getD 0)) = o ∧ o.getD 0 < 2 ^ 32 := by
  cases o with
  | none => simp
  | some k =>
      simp only [counter_ok, Bool.and_eq_true, decide_eq_true_eq] at h
      exact ⟨by simp [Nat.pos_iff_ne_zero.mp h.1], h.2⟩

end Madara

namespace Madara

/-- Execution resources survive the round trip when round-trippable. -/
theorem er_roundtrip (r : ExecutionResources) (h : r.roundtrippable = true) :
    ∃ w, r.toModel = some w ∧ w.tryInto = .ok r := by
  obtain ⟨steps, mh, rc, pd, ps, ec, ed, bw, kc, sa, da, tg⟩ := r
  simp only [ExecutionResources.roundtrippable, Bool.and_eq_true, decide_eq_true_eq] at h
  obtain ⟨⟨⟨⟨⟨⟨⟨⟨⟨⟨⟨hsteps, hmh⟩, hrc⟩, hpd⟩, hps⟩, hec⟩, hed⟩, hbw⟩, hkc⟩, hsa⟩, hda⟩, htg⟩ := h
  subst hsa hda htg
  have cond : bw.getD 0 < 2 ^ 32 ∧ ed.getD 0 < 2 ^ 32 ∧ ec.getD 0 < 2 ^ 32 ∧
      pd.getD 0 < 2 ^ 32 ∧ rc.getD 0 < 2 ^ 32 ∧ ps.getD 0 < 2 ^ 32 ∧
      kc.getD 0 < 2 ^ 32 ∧ steps < 2 ^ 32 ∧ mh.getD 0 < 2 ^ 32 :=
    ⟨(counter_getD _ hbw).2, (counter_getD _ hed).2, (counter_getD _ hec).2,
     (counter_getD _ hpd).2, (counter_getD _ hrc).2, (counter_getD _ hps).2,
     (counter_getD _ hkc).2, hsteps, (counter_getD _ hmh).2⟩
  refine ⟨⟨some ⟨bw.getD 0, ed.getD 0, ec.getD 0, pd.getD 0, rc.getD 0, ps.getD 0, kc.getD 0,
      0, 0, 0, 0⟩, steps, mh.getD 0, some 0, some 0, some 0⟩, ?_, ?_⟩
  · unfold ExecutionResources.toModel
    rw [if_pos cond]
    rfl
  · have h128 : felt_to_u128 0 = some 0 := by norm_num [felt_to_u128]
    unfold model.receipt.ExecutionResources.tryInto
    simp only [Option.getD_some, h128]
    rw [(counter_getD _ hmh).1, (counter_getD _ hrc).1, (counter_getD _ hpd).1,
      (counter_getD _ hps).1, (counter_getD _ hec).1, (counter_getD _ hed).1,
      (counter_getD _ hbw).1, (counter_getD _ hkc).1]
    rfl

end Madara

namespace Madara

/-- The shared receipt body survives the round trip. -/
theorem common_roundtrip (fee : FeePayment) (msgs : List MsgToL1) (er : ExecutionResources)
    (res : ExecutionResult) (h : er.roundtrippable = true) :
    ∃ c, receipt_common_to_model fee msgs er res = some c ∧
      parse_receipt_common c = .ok (fee, msgs, er, res) := by
  rcases fee with ⟨amount, unit⟩
  obtain ⟨w, hw, hw2⟩ := er_roundtrip er h
  refine ⟨⟨some amount, (PriceUnit.toModelPU unit).toInt, msgs.map MsgToL1.toModel, some w,
    res.revert_reason⟩, ?_, ?_⟩
  · unfold receipt_common_to_model
    rw [hw]
    rfl
  · unfold parse_receipt_common
    simp only [Option.getD_some, msgs_roundtrip, hw2, execution_result_roundtrip]
    cases unit <;> rfl

/-- Every receipt variant survives the round trip when round-trippable,
with the transaction hash re-threaded from the wire transaction. -/
theorem receipt_roundtrip (rec : TransactionReceipt) (h : rec.roundtrippable = true) :
    ∃ w, rec.toModel = some w ∧ w.parse_model rec.transaction_hash = .ok rec := by
  cases rec with
  | Invoke r =>
      obtain ⟨th, fee, msgs, ev, er, res⟩ := r
      simp only [TransactionReceipt.roundtrippable, Bool.and_eq_true, decide_eq_true_eq] at h
      obtain ⟨hev, her⟩ := h
      subst hev
      obtain ⟨c, hc, hc2⟩ := common_roundtrip fee msgs er res her
      refine ⟨⟨some (.Invoke ⟨some c⟩)⟩, ?_, ?_⟩
      · simp only [TransactionReceipt.toModel, InvokeTransactionReceipt.toModel, hc]
        rfl
      · simp only [model.Receipt.parse_model, model.receipt.Invoke.parse_model,
          Option.getD_some, hc2]
        rfl
  | L1Handler r =>
      obtain ⟨th, fee, msgs, ev, er, res, mh⟩ := r
      simp only [TransactionReceipt.roundtrippable, Bool.and_eq_true, decide_eq_true_eq] at h
      obtain ⟨hev, her⟩ := h
      subst hev
      obtain ⟨c, hc, hc2⟩ := common_roundtrip fee msgs er res her
      refine ⟨⟨some (.L1Handler ⟨some c, some mh⟩)⟩, ?_, ?_⟩
      · simp only [TransactionReceipt.toModel, L1HandlerTransactionReceipt.toModel, hc]
        rfl
      · simp only [model.Receipt.parse_model, model.receipt.L1Handler.parse_model,
          Option.getD_some, hc2]
        rfl
  | Declare r =>
      obtain ⟨th, fee, msgs, ev, er, res⟩ := r
      simp only [TransactionReceipt.roundtrippable, Bool.and_eq_true, decide_eq_true_eq] at h
      obtain ⟨hev, her⟩ := h
      subst hev
      obtain ⟨c, hc, hc2⟩ := common_roundtrip fee msgs er res her
      refine ⟨⟨some (.Declare ⟨some c⟩)⟩, ?_, ?_⟩
      · simp only [TransactionReceipt.toModel, DeclareTransactionReceipt.toModel, hc]
        rfl
      · simp only [model.Receipt.parse_model, model.receipt.Declare.parse_model,
          Option.getD_some, hc2]
        rfl
  | Deploy r =>
      obtain ⟨th, fee, msgs, ev, er, res, ca⟩ := r
      simp only [TransactionReceipt.roundtrippable, Bool.and_eq_true, decide_eq_true_eq] at h
      obtain ⟨hev, her⟩ := h
      subst hev
      obtain ⟨c, hc, hc2⟩ := common_roundtrip fee msgs er res her
      refine ⟨⟨some (.DeprecatedDeploy ⟨some c, some ca⟩)⟩, ?_, ?_⟩
      · simp only [TransactionReceipt.toModel, DeployTransactionReceipt.toModel, hc]
        rfl
      · simp only [model.Receipt.parse_model, model.receipt.Deploy.parse_model,
          Option.getD_some, hc2]
        rfl
  | DeployAccount r =>
      obtain ⟨th, fee, msgs, ev, er, res, ca⟩ := r
      simp only [TransactionReceipt.roundtrippable, Bool.and_eq_true, decide_eq_true_eq] at h
      obtain ⟨hev, her⟩ := h
      subst hev
      obtain ⟨c, hc, hc2⟩ := common_roundtrip fee msgs er res her
      refine ⟨⟨some (.DeployAccount ⟨some c, some ca⟩)⟩, ?_, ?_⟩
      · simp only [TransactionReceipt.toModel, DeployAccountTransactionReceipt.toModel, hc]
        rfl
      · simp only [model.Receipt.parse_model, model.receipt.DeployAccount.parse_model,
          Option.getD_some, hc2]
        rfl

/-- Every transaction variant survives the round trip when round-trippable. -/
theorem transaction_roundtrip (t : Transaction) (h : t.roundtrippable = true) :
    ∃ w, t.toModel = some w ∧ w.tryInto = .ok t := by
  cases t with
  | Invoke itx =>
      cases itx with
      | V0 tx => exact ⟨.InvokeV0 tx.toModel, rfl, rfl⟩
      | V1 tx => exact ⟨.InvokeV1 tx.toModel, rfl, rfl⟩
      | V3 tx =>
          simp only [Transaction.roundtrippable] at h
          refine ⟨.InvokeV3 tx.toModel, rfl, ?_⟩
          simp only [model.transaction.Txn.tryInto, model.transaction.InvokeV3.tryInto,
            InvokeTransactionV3.toModel, Option.getD_some,
            resource_bounds_mapping_roundtrip _ h, volition_roundtrip]
          rfl
  | L1Handler tx =>
      obtain ⟨ver, nonce, addr, eps, cd⟩ := tx
      simp only [Transaction.roundtrippable, Bool.and_eq_true, decide_eq_true_eq] at h
      obtain ⟨hv, hn⟩ := h
      subst hv
      refine ⟨.L1Handler (L1HandlerTransaction.toModel ⟨0, nonce, addr, eps, cd⟩), rfl, ?_⟩
      simp only [model.transaction.Txn.tryInto, model.transaction.L1HandlerV0.tryInto,
        L1HandlerTransaction.toModel, felt_to_u64, Option.getD_some]
      rw [if_pos hn]
      rfl
  | Declare dtx =>
      cases dtx with
      | V0 tx => exact ⟨.DeclareV0 tx.toModel, rfl, rfl⟩
      | V1 tx => exact ⟨.DeclareV1 tx.toModel, rfl, rfl⟩
      | V2 tx => exact ⟨.DeclareV2 tx.toModel, rfl, rfl⟩
      | V3 tx =>
          simp only [Transaction.roundtrippable] at h
          refine ⟨.DeclareV3 tx.toModel, rfl, ?_⟩
          simp only [model.transaction.Txn.tryInto, model.transaction.DeclareV3.tryInto,
            DeclareTransactionV3.toModel, Option.getD_some,
            resource_bounds_mapping_roundtrip _ h, volition_roundtrip]
          rfl
  | Deploy tx =>
      simp only [Transaction.roundtrippable, decide_eq_true_eq] at h
      refine ⟨.Deploy ⟨some tx.class_hash, some tx.contract_address_salt,
        tx.constructor_calldata, tx.version⟩, ?_, rfl⟩
      simp only [Transaction.toModel, DeployTransaction.toModel, felt_to_u32]
      rw [if_pos h]
      rfl
  | DeployAccount datx =>
      cases datx with
      | V1 tx => exact ⟨.DeployAccountV1 tx.toModel, rfl, rfl⟩
      | V3 tx =>
          simp only [Transaction.roundtrippable] at h
          refine ⟨.DeployAccountV3 tx.toModel, rfl, ?_⟩
          simp only [model.transaction.Txn.tryInto, model.transaction.DeployAccountV3.tryInto,
            DeployAccountTransactionV3.toModel, Option.getD_some,
            resource_bounds_mapping_roundtrip _ h, volition_roundtrip]
          rfl

end Madara

namespace Madara

/-- C2 (amended): encoding a transaction-with-receipt to the wire model
and decoding it back succeeds and yields the original, for every variant,
provided the value is round-trippable: receipt events empty, execution
resources without `Some(0)` counters / `segment_arena` / nonzero gas
totals and with `u32`-bounded counters, resource bounds fitting their wire
widths, `L1Handler` version `0`, and `Deploy` version fitting `u32`. -/
theorem twr_roundtrip (v : TransactionWithReceipt)
    (ht : v.transaction.roundtrippable = true) (hr : v.receipt.roundtrippable = true) :
    ∃ w, v.toModel = some w ∧ model.TransactionWithReceipt.tryInto w = .ok v := by
  obtain ⟨wt, hwt, hwt2⟩ := transaction_roundtrip _ ht
  obtain ⟨wr, hwr, hwr2⟩ := receipt_roundtrip _ hr
  refine ⟨⟨some ⟨some v.receipt.transaction_hash, some wt⟩, some wr⟩, ?_, ?_⟩
  · simp only [TransactionWithReceipt.toModel, hwt, hwr]
    rfl
  · simp only [model.TransactionWithReceipt.tryInto, model.Transaction.tryInto,
      Option.getD_some, hwt2, bind, Except.bind, pure, Except.pure]
    simp only [hwr2, Except.bind]

/-- C2 counterexample: on a transaction-with-receipt whose receipt holds
one event, the round trip succeeds but drops the event, so the result is
not equal to the original as the claim requires. -/
theorem twr_roundtrip_cx :
    (TransactionWithReceipt.toModel twr_with_event).bind
        (fun w => (model.TransactionWithReceipt.tryInto w).toOption) =
      some twr_with_event_decoded ∧
    twr_with_event_decoded ≠ twr_with_event := by
  constructor
  · decide
  · decide

/-- Witness for `twr_roundtrip` at a concrete event-free value. -/
theorem twr_roundtrip_witness :
    Transaction.roundtrippable twr_with_event_decoded.transaction = true ∧
      TransactionReceipt.roundtrippable twr_with_event_decoded.receipt = true ∧
      ∃ w, twr_with_event_decoded.toModel = some w ∧
        model.TransactionWithReceipt.tryInto w = .ok twr_with_event_decoded :=
  ⟨by decide, by decide, twr_roundtrip _ (by decide) (by decide)⟩

end Madara

namespace Madara

/-- The stream-reading loop returns all decoded items when the stream
delivers (at least) the expected count of well-formed messages. -/
theorem read_aux_ok (total i : Nat) (ws : List model.TransactionWithReceipt)
    (vs : List TransactionWithReceipt) (tail : List model.TransactionsResponse)
    (h : List.Forall₂ (fun w v => model.TransactionWithReceipt.tryInto w = .ok v) ws vs) :
    read_transactions_stream_aux total i vs.length (ws.map twr_response ++ tail) = .ok vs := by
  induction h generalizing i with
  | nil => rfl
  | @cons w v ws' vs' hwv hrest ih =>
      simp only [List.map_cons, List.length_cons, List.cons_append,
        read_transactions_stream_aux, twr_response, hwv, ih]
      rfl

/-- The stream-reading loop hits `handle_fin` at the index where a short
stream ends or yields `Fin`. -/
theorem read_aux_short (total : Nat) (ws : List model.TransactionWithReceipt)
    (vs : List TransactionWithReceipt)
    (h : List.Forall₂ (fun w v => model.TransactionWithReceipt.tryInto w = .ok v) ws vs) :
    ∀ i rem, ws.length < rem →
      read_transactions_stream_aux total i rem (ws.map twr_response) =
          .error (handle_fin total (i + ws.length)) ∧
        read_transactions_stream_aux total i rem (ws.map twr_response ++ [fin_response]) =
          .error (handle_fin total (i + ws.length)) := by
  induction h with
  | nil =>
      intro i rem hlt
      obtain ⟨r, rfl⟩ : ∃ r, rem = r + 1 := ⟨rem - 1, by omega⟩
      exact ⟨rfl, rfl⟩
  | @cons w v ws' vs' hwv hrest ih =>
      intro i rem hlt
      obtain ⟨r, rfl⟩ : ∃ r, rem = r + 1 := ⟨rem - 1, by omega⟩
      have hlt' : ws'.length < r := by
        simp only [List.length_cons] at hlt
        omega
      obtain ⟨h1, h2⟩ := ih (i + 1) r hlt'
      have hadd : i + 1 + ws'.length = i + (w :: ws').length := by
        simp only [List.length_cons]
        omega
      rw [hadd] at h1 h2
      constructor <;>
        simp only [List.map_cons, List.cons_append, read_transactions_stream_aux,
          twr_response, hwv, h1, h2] <;> rfl

end Madara

namespace Madara

/-- C5: for expected count `n`, a stream of well-formed items that ends or
yields `Fin` after `i` items with `0 < i < n` produces the bad-request
error naming `n` and `i`; a stream ending (or `Fin`) before the first item
produces `EndOfStream`; a stream delivering all `n` items returns the `n`
converted items. -/
theorem read_transactions_stream_spec (n : Nat) (ws : List model.TransactionWithReceipt)
    (vs : List TransactionWithReceipt) (tail : List model.TransactionsResponse)
    (h : List.Forall₂ (fun w v => model.TransactionWithReceipt.tryInto w = .ok v) ws vs) :
    (vs.length = n → read_transactions_stream (ws.map twr_response ++ tail) n = .ok vs) ∧
    (0 < ws.length → ws.length < n →
      read_transactions_stream (ws.map twr_response) n =
          .error (.bad_request s!"Expected {n} messages in stream, got {ws.length}") ∧
        read_transactions_stream (ws.map twr_response ++ [fin_response]) n =
          .error (.bad_request s!"Expected {n} messages in stream, got {ws.length}")) ∧
    (0 < n →
      read_transactions_stream [] n = .error .EndOfStream ∧
        read_transactions_stream (fin_response :: tail) n = .error .EndOfStream) := by
  refine ⟨?_, ?_, ?_⟩
  · intro hn
    subst hn
    exact read_aux_ok vs.length 0 ws vs tail h
  · intro hpos hlt
    obtain ⟨h1, h2⟩ := read_aux_short n ws vs h 0 n hlt
    have hfin : handle_fin n (0 + ws.length) =
        .bad_request s!"Expected {n} messages in stream, got {ws.length}" := by
      simp only [handle_fin, Nat.zero_add]
      rw [if_neg (Nat.pos_iff_ne_zero.mp hpos)]
    rw [hfin] at h1 h2
    exact ⟨h1, h2⟩
  · intro hn
    obtain ⟨m, rfl⟩ : ∃ m, n = m + 1 := ⟨n - 1, by omega⟩
    exact ⟨rfl, rfl⟩

/-- Witness for `read_transactions_stream_spec`: one valid item when two
are expected, and an immediately-ended stream. -/
theorem read_transactions_stream_spec_witness :
    read_transactions_stream [twr_response wire_twr0] 2 =
        .error (.bad_request "Expected 2 messages in stream, got 1") ∧
      read_transactions_stream [] 2 = .error .EndOfStream := by
  have h := read_transactions_stream_spec 2 [wire_twr0] [twr0] []
    (List.Forall₂.cons rfl List.Forall₂.nil)
  exact ⟨(h.2.1 (by decide) (by decide)).1, (h.2.2 (by decide)).1⟩

end Madara

namespace Madara

/-- C6: the wire → internal conversion is a total function (never
panics): a missing required field produces a `missing_field` error with
the field's qualified name, an out-of-range numeric field produces an
`invalid_field` error, and an unrecognized enum discriminant produces an
`invalid_enum_variant` error. -/
theorem conversion_error_contract :
    (∀ m : model.Transaction, m.txn = none →
        m.tryInto = .error (.missing_field "Transaction::transaction")) ∧
    (∀ (m : model.Transaction) (txn : model.transaction.Txn) (t : Transaction),
        m.txn = some txn → txn.tryInto = .ok t → m.transaction_hash = none →
        m.tryInto = .error (.missing_field "Transaction::transaction_hash")) ∧
    (∀ (r : model.Receipt) (hash : Felt), r.type = none →
        r.parse_model hash = .error (.missing_field "Receipt::type")) ∧
    (∀ (l : model.ResourceLimits) (a : Felt), l.max_amount = some a → 2 ^ 64 ≤ a →
        l.tryInto = .error (.invalid_field "ResourceLimits::max_amount")) ∧
    (∀ x : Int, x ≠ 0 → x ≠ 1 →
        parse_volition_domain x = .error (.invalid_enum_variant "VolitionDomain" x)) ∧
    (∀ w : model.TransactionWithReceipt,
        (∃ v, w.tryInto = .ok v) ∨ ∃ e, w.tryInto = .error e) := by
  refine ⟨?_, ?_, ?_, ?_, ?_, ?_⟩
  · intro m hm
    simp [model.Transaction.tryInto, hm]
  · intro m txn t hm ht hh
    simp [model.Transaction.tryInto, hm, ht, hh, bind, Except.bind]
  · intro r hash hr
    simp [model.Receipt.parse_model, hr]
  · intro l a ha hge
    simp only [model.ResourceLimits.tryInto, ha, Option.getD_some, felt_to_u64]
    rw [if_neg (Nat.not_lt.mpr hge)]
  · intro x h0 h1
    have hnone : model.VolitionDomain.fromInt x = none := by
      unfold model.VolitionDomain.fromInt
      split <;> simp_all
    unfold parse_volition_domain
    rw [hnone]
  · intro w
    cases hw : w.tryInto with
    | ok v => exact Or.inl ⟨v, rfl⟩
    | error e => exact Or.inr ⟨e, rfl⟩

/-- Witness for `conversion_error_contract` at concrete malformed
messages. -/
theorem conversion_error_contract_witness :
    model.Transaction.tryInto ⟨none, none⟩ =
        .error (.missing_field "Transaction::transaction") ∧
      model.ResourceLimits.tryInto ⟨some (2 ^ 64), none⟩ =
        .error (.invalid_field "ResourceLimits::max_amount") ∧
      parse_volition_domain 2 = .error (.invalid_enum_variant "VolitionDomain" 2) :=
  ⟨conversion_error_contract.1 _ rfl,
    conversion_error_contract.2.2.2.1 _ (2 ^ 64) rfl le_rfl,
    conversion_error_contract.2.2.2.2.1 2 (by decide) (by decide)⟩

/-- C10: for DeclareV0/V1/V2, InvokeV0/V1, Deploy and DeployAccountV1,
wire messages with all per-field sub-messages absent decode successfully
to default (zero/empty) values, and decoding these variants succeeds on
every input (their conversions are infallible, so only the top-level
required fields, receipt type, DA-mode discriminants and fixed-width
numeric fields elsewhere can fail a conversion). -/
theorem legacy_variants_total :
    (model.transaction.DeclareV0.tryInto ⟨none, none, none, none⟩ =
        .ok { sender_address := 0, max_fee := 0, signature := [], class_hash := 0 }) ∧
    (model.transaction.DeclareV1.tryInto ⟨none, none, none, none, none⟩ =
        .ok { sender_address := 0, max_fee := 0, signature := [], nonce := 0,
              class_hash := 0 }) ∧
    (model.transaction.DeclareV2.tryInto ⟨none, none, none, none, none, none⟩ =
        .ok { sender_address := 0, compiled_class_hash := 0, max_fee := 0, signature := [],
              nonce := 0, class_hash := 0 }) ∧
    (model.transaction.InvokeV0.tryInto ⟨none, none, none, none, []⟩ =
        .ok { max_fee := 0, signature := [], contract_address := 0,
              entry_point_selector := 0, calldata := [] }) ∧
    (model.transaction.InvokeV1.tryInto ⟨none, none, none, [], none⟩ =
        .ok { sender_address := 0, calldata := [], max_fee := 0, signature := [],
              nonce := 0 }) ∧
    (model.transaction.Deploy.tryInto ⟨none, none, [], 0⟩ =
        .ok { version := 0, contract_address_salt := 0, constructor_calldata := [],
              class_hash := 0 }) ∧
    (model.transaction.DeployAccountV1.tryInto ⟨none, none, none, none, none, []⟩ =
        .ok { max_fee := 0, signature := [], nonce := 0, contract_address_salt := 0,
              constructor_calldata := [], class_hash := 0 }) ∧
    (∀ v : model.transaction.DeclareV0, ∃ t, v.tryInto = .ok t) ∧
    (∀ v : model.transaction.DeclareV1, ∃ t, v.tryInto = .ok t) ∧
    (∀ v : model.transaction.DeclareV2, ∃ t, v.tryInto = .ok t) ∧
    (∀ v : model.transaction.InvokeV0, ∃ t, v.tryInto = .ok t) ∧
    (∀ v : model.transaction.InvokeV1, ∃ t, v.tryInto = .ok t) ∧
    (∀ v : model.transaction.Deploy, ∃ t, v.tryInto = .ok t) ∧
    (∀ v : model.transaction.DeployAccountV1, ∃ t, v.tryInto = .ok t) :=
  ⟨rfl, rfl, rfl, rfl, rfl, rfl, rfl,
    fun _ => ⟨_, rfl⟩, fun _ => ⟨_, rfl⟩, fun _ => ⟨_, rfl⟩, fun _ => ⟨_, rfl⟩,
    fun _ => ⟨_, rfl⟩, fun _ => ⟨_, rfl⟩, fun _ => ⟨_, rfl⟩⟩

end Madara
